import Mathlib

/-!
# LED_Controller

A shallow embedding of `src/main.cpp` (ATmega328 firmware: one PWM channel, one
button, one potentiometer) together with the properties of its brightness
corrector, its mode state machine and its calibration routine.

Conventions of the embedding

* The target is an AVR: `int` is 16 bits, `long` is 32 bits, both two's
  complement.  Values are carried as `Int`; `toInt` and `toLong` reduce a value
  to the representable range where the C++ code converts or may wrap.
* The globals of the sketch (`settings`, `NOW_LVL`, `NOW_LVL_CRT`, `newValue`,
  `NUM_MODE_`) are the fields of `State`.  Calls into the collaborating
  libraries that are visible from outside (indicator blinks, PWM writes,
  potentiometer reads, the sleep request, persistence requests) are appended to
  `State.trace` in program order.
* Everything the environment decides is an explicit input: click counts,
  raw potentiometer readings, the values the interpolator returns on each pass
  of a timed loop (one list element per pass, so the length of the list is the
  number of passes that fit in the time window), whether the wake interrupt
  arrives, whether the persistence timeout has elapsed.
* `constrain` is a macro that names its argument three times, and the sketch
  passes it a call (`analogRead`, `easing.SetSetpoint`): one clamp makes up to
  three calls.  A reading or an interpolator value is therefore a `Calls`, the
  results of these calls in order; `Calls.same x` is the case where they agree.
* A routine that blocks returns `Except.error s`: `s` is the state in which it
  is still waiting when the supplied inputs end.  `Except.ok s` is a return.
-/

namespace LEDController

/-! ## Machine integers -/

/-- Value of an integer after conversion to the 32-bit signed `long` of the target. -/
def toLong (x : Int) : Int := (x + 2147483648) % 4294967296 - 2147483648

/-- Value of an integer after conversion to the 16-bit signed `int` of the target. -/
def toInt (x : Int) : Int := (x + 32768) % 65536 - 32768

/-! ## Constants and data (main.cpp lines 60-97) -/

/-- Brightness value of the Off mode (`#define OFF 0`). -/
def OFF : Int := 0

/-- Largest brightness value (`#define MAX 1023`). -/
def MAX : Int := 1023

/-- The persisted settings (`struct Data`), with the initialisers of the source. -/
structure Data where
  FIRST_LVL : Int := 512
  SECOND_LVL : Int := 1023
  NUM_MODE : Bool := false
deriving DecidableEq, Repr

/-- Calls into the collaborating libraries, in the order the program makes them. -/
inductive Effect where
  /-- The call `led.blink(count, onMs, offMs)`. -/
  | blink (count onMs offMs : Int)
  /-- The call `analogWrite(LED_PIN_1, value)`. -/
  | analogWrite (value : Int)
  /-- The call `analogRead(VOL_PIN)`, with the raw value it returned. -/
  | analogRead (raw : Int)
  /-- The call `power.sleep(SLEEP_FOREVER)`. -/
  | sleep
  /-- The call `memory.update()`. -/
  | update
  /-- The call `memory.reset()`. -/
  | reset
  /-- The call `memory.begin(ADDR, INIT_KEY)`. -/
  | begin
deriving DecidableEq, Repr

/-- Modelled from the spec: the persistent-settings service (the `EEManager` object
`memory`, whose code is in `lib/`, not in `src/`).  The settings blob is guarded by an
initialisation marker; a commit is deferred by a dirty flag. -/
structure Store where
  marker : Bool := false
  blob : Data := {}
  dirty : Bool := false
deriving DecidableEq, Repr

/-- The globals of the sketch, the persistent store and the trace of library calls. -/
structure State where
  settings : Data := {}
  memory : Store := {}
  NOW_LVL : Int := 0
  NOW_LVL_CRT : Int := 0
  newValue : Int := 0
  NUM_MODE_ : Int := 2
  trace : List Effect := []
deriving DecidableEq, Repr

/-- The results of the successive evaluations of a side-effecting argument
(`analogRead(VOL_PIN)`, `easing.SetSetpoint(...)`) inside one expansion of the macro
`constrain`, which names its argument three times. -/
structure Calls where
  first : Int
  second : Int
  third : Int
deriving DecidableEq, Repr

/-- Every evaluation returns the same value `x`. -/
def Calls.same (x : Int) : Calls := ⟨x, x, x⟩

/-- One pass of the `while (restart)` loop of `set()`: the click count when
`btn.hasClicks()` holds, and the raw potentiometer values read at line 299. -/
structure CalibStep where
  clicks : Option Int
  pot : Calls
deriving DecidableEq, Repr

/-- What the environment supplies to one pass of `loop()`. -/
structure Input where
  /-- The persistence timeout has elapsed when `memory.tick()` runs. -/
  flush : Bool := false
  /-- The click count when `btn.hasClicks()` holds (`btn.getClicks()`). -/
  clicks : Option Int := none
  /-- Interpolator values of the `transit()` at line 164, one per pass. -/
  offRamp : List Calls := []
  /-- The wake interrupt arrives after `power.sleep(SLEEP_FOREVER)`. -/
  wake : Bool := true
  /-- Raw potentiometer values read on entry of `set()` (line 260). -/
  pot : Calls := Calls.same 0
  /-- Interpolator values of the timed loop of `set()` (lines 264-272). -/
  calRamp : List Calls := []
  /-- The passes of the `while (restart)` loop of `set()`. -/
  calib : List CalibStep := []
  /-- Interpolator values of the `transit()` at line 203, one per pass. -/
  ramp : List Calls := []
deriving DecidableEq, Repr

/-! ## Arduino core helpers used by the sketch -/

/-- The clamp of a value into `[low, high]`. -/
def clamp (x low high : Int) : Int :=
  if x < low then low else if x > high then high else x

/-- The Arduino core macro `constrain(amt, low, high)`, which expands to
`((amt)<(low)?(low):((amt)>(high)?(high):(amt)))`, applied to a call: the first
evaluation is compared with `low`, the second with `high`, and the third is the value of
the expression, returned as it is. -/
def constrain (amt : Calls) (low high : Int) : Int :=
  if amt.first < low then low else if amt.second > high then high else amt.third

/-- The results of the evaluations the macro `constrain` makes, in order: one when the
first is below `low`, two when the second is above `high`, three otherwise. -/
def callsMade (amt : Calls) (low high : Int) : List Int :=
  if amt.first < low then [amt.first]
  else if amt.second > high then [amt.first, amt.second]
  else [amt.first, amt.second, amt.third]

/-- Modelled from the spec: the Arduino function `map`, the linear rescale
`(x - in_min) * (out_max - out_min) / (in_max - in_min) + out_min` in `long` arithmetic
with truncating division (the spec: `value * 255 / 1023`). -/
def map (x in_min in_max out_min out_max : Int) : Int :=
  toLong (Int.tdiv (toLong ((x - in_min) * (out_max - out_min))) (toLong (in_max - in_min))
    + out_min)

/-! ## Brightness corrector (main.cpp lines 309-312) -/

/-- The function `int getBrightCRT(int val)`:
`return ((long)val * val * val + 130305) >> 16;`.  The argument is converted to `int`,
the products and the sum are `long`, the shift is arithmetic, the result is converted to
`int`. -/
def getBrightCRT (val : Int) : Int :=
  toInt (toLong (toLong (toLong (toInt val * toInt val) * toInt val) + 130305) >>> (16 : Nat))

/-! ## Transition engine (main.cpp lines 211-255) -/

/-- Append one library call to the trace. -/
def emit (s : State) (e : Effect) : State :=
  { s with trace := s.trace ++ [e] }

/-- Conversion of the `bool` field `settings.NUM_MODE` to `int`. -/
def boolToInt (b : Bool) : Int := if b then 1 else 0

/-- The function `void setNewValue()`: the `switch (NUM_MODE_)` of lines 213-235. -/
def setNewValue (s : State) : State :=
  if s.NUM_MODE_ = 0 then
    { s with newValue := s.settings.FIRST_LVL, settings := { s.settings with NUM_MODE := false } }
  else if s.NUM_MODE_ = 1 then
    { s with newValue := s.settings.SECOND_LVL, settings := { s.settings with NUM_MODE := true } }
  else if s.NUM_MODE_ = 2 then
    { s with newValue := OFF }
  else if s.NUM_MODE_ = 3 then
    { s with newValue := MAX }
  else s

/-- One pass of the timed loop of `transit()` (lines 248-252); `e` holds the values
returned by the calls `easing.SetSetpoint(newValue)` of line 249, converted to `int`. -/
def transitStep (s : State) (e : Calls) : State :=
  let lvl := constrain e 0 1023
  let crt := getBrightCRT (map lvl 0 1023 0 255)
  { s with NOW_LVL := lvl, NOW_LVL_CRT := crt, trace := s.trace ++ [Effect.analogWrite crt] }

/-- The function `void transit()`: `setNewValue()`, then one `transitStep` per pass of
the timed loop. -/
def transit (s : State) (ramp : List Calls) : State :=
  ramp.foldl transitStep (setNewValue s)

/-! ## Manual calibration (main.cpp lines 258-306) -/

/-- One pass of the timed loop of `set()` (lines 266-270): the locals `lvl` and `lvl_crt`
only reach the PWM output. -/
def setRampStep (s : State) (e : Calls) : State :=
  emit s (Effect.analogWrite (getBrightCRT (map (constrain e 0 1023) 0 1023 0 255)))

/-- The 2-click branch shared by `loop()` (lines 173-174) and `set()` (lines 284-285). -/
def toggleMode (s : State) : State :=
  if s.NUM_MODE_ = 0 then { s with NUM_MODE_ := 1 }
  else if s.NUM_MODE_ = 1 then { s with NUM_MODE_ := 0 }
  else s

/-- The click handling of one pass of `while (restart)` (lines 280-296), for click count
`val` and local `now_lvl`; the second component is the new value of `restart`. -/
def setClicks (s : State) (now_lvl : Int) (val : Int) : State × Bool :=
  let s1 := if val = 2 then toggleMode (emit s (Effect.blink 2 100 100)) else s
  let s2 :=
    if val = 3 then
      let a := if s1.NUM_MODE_ = 0 then
        { s1 with settings := { s1.settings with FIRST_LVL := now_lvl } } else s1
      if a.NUM_MODE_ = 1 then
        { a with settings := { a.settings with SECOND_LVL := now_lvl } } else a
    else s1
  let restart := if val = 3 then false else true
  (s2, if val = 4 then false else restart)

/-- The calls `analogRead(VOL_PIN)` made by `constrain(analogRead(VOL_PIN), 0, 1023)`. -/
def potReads (c : Calls) : List Effect :=
  (callsMade c 0 1023).map Effect.analogRead

/-- Append the potentiometer reads of one clamp to the trace. -/
def readPot (s : State) (c : Calls) : State :=
  { s with trace := s.trace ++ potReads c }

/-- The loop `while (restart)` of `set()` (lines 274-304), entered with local `now_lvl`. -/
def setLoop (s : State) (now_lvl : Int) : List CalibStep → Except State State
  | [] => Except.error s
  | c :: rest =>
    let r := match c.clicks with
      | some val => setClicks s now_lvl val
      | none => (s, true)
    let now_lvl1 := constrain c.pot 0 1023
    let s1 := emit (readPot r.1 c.pot)
      (Effect.analogWrite (getBrightCRT (map now_lvl1 0 1023 0 225)))
    if r.2 then setLoop s1 now_lvl1 rest else Except.ok s1

/-- The function `void set()`. -/
def set (s : State) (pot : Calls) (calRamp : List Calls) (calib : List CalibStep) :
    Except State State :=
  let now_lvl := constrain pot 0 1023
  let s1 := calRamp.foldl setRampStep (readPot s pot)
  match setLoop s1 now_lvl calib with
  | Except.ok s2 => Except.ok (emit s2 (Effect.blink 3 100 100))
  | Except.error s2 => Except.error s2

/-! ## Persistence service -/

/-- Modelled from the spec: `memory.tick()`, the deferred flush: when a commit is
pending and the timeout has elapsed the settings are written to the store. -/
def memoryTick (s : State) (flush : Bool) : State :=
  if s.memory.dirty && flush then
    { s with memory := { s.memory with blob := s.settings, dirty := false } }
  else s

/-- Modelled from the spec: `memory.update()`, the request of a persistence commit. -/
def memoryUpdate (s : State) : State :=
  emit { s with memory := { s.memory with dirty := true } } Effect.update

/-- Modelled from the spec: `memory.reset()`, which erases the initialisation marker. -/
def memoryReset (s : State) : State :=
  emit { s with memory := { s.memory with marker := false } } Effect.reset

/-- Modelled from the spec: `memory.begin(ADDR, INIT_KEY)`: with the marker present the
settings are loaded from the store; with the marker absent the defaults are written to
the store, the marker is set, and the settings are the defaults. -/
def memoryBegin (s : State) : State :=
  if s.memory.marker then emit { s with settings := s.memory.blob } Effect.begin
  else emit { s with settings := {}, memory := { s.memory with marker := true, blob := {} } }
    Effect.begin

/-! ## Main loop (main.cpp lines 110-205) -/

/-- The function `void setup()`, from the content `m` of the persistent store: the state
in which `loop()` runs for the first time. -/
def setup (m : Store) : State :=
  emit (memoryBegin { memory := m }) (Effect.blink 1 500 100)

/-- The `switch (val)` of `loop()` (lines 156-201). -/
def loopSwitch (s : State) (val : Int) (i : Input) : Except State State :=
  if val = 1 then
    let s1 := emit s (Effect.blink 1 100 100)
    if s1.NUM_MODE_ = 2 then
      Except.ok { s1 with NUM_MODE_ := boolToInt s1.settings.NUM_MODE }
    else
      let s2 := transit { s1 with NUM_MODE_ := 2 } i.offRamp
      let s3 := emit s2 Effect.sleep
      if i.wake then
        let s4 := emit s3 (Effect.blink 1 100 100)
        Except.ok { s4 with NUM_MODE_ := boolToInt s4.settings.NUM_MODE }
      else Except.error s3
  else if val = 2 then
    Except.ok (toggleMode (emit s (Effect.blink 2 100 100)))
  else if val = 3 then
    let s1 := emit s (Effect.blink 3 100 100)
    if s1.NUM_MODE_ = 0 ∨ s1.NUM_MODE_ = 1 then set s1 i.pot i.calRamp i.calib
    else Except.ok s1
  else if val = 5 then
    if s.NUM_MODE_ = 0 ∨ s.NUM_MODE_ = 1 then
      Except.ok (memoryUpdate (emit s (Effect.blink 4 100 100)))
    else Except.ok s
  else if val = 10 then
    if s.NUM_MODE_ = 0 ∨ s.NUM_MODE_ = 1 then
      Except.ok (memoryBegin (memoryReset (emit s (Effect.blink 5 100 100))))
    else Except.ok s
  else Except.ok s

/-- The function `void loop()`: one pass of the main loop. -/
def loop (s : State) (i : Input) : Except State State :=
  let s0 := memoryTick s i.flush
  match i.clicks with
  | none => Except.ok s0
  | some val =>
    match loopSwitch s0 val i with
    | Except.ok s1 => Except.ok (transit s1 i.ramp)
    | Except.error s1 => Except.error s1

/-- Successive passes of `loop()`, one per input; stops where a pass blocks. -/
def run (s : State) : List Input → Except State State
  | [] => Except.ok s
  | i :: rest =>
    match loop s i with
    | Except.ok s1 => run s1 rest
    | Except.error s1 => Except.error s1

/-- The state carried by a result, returned or blocked. -/
def stateOf : Except State State → State
  | Except.ok s => s
  | Except.error s => s

/-- The globals as initialised by the source (lines 73-75 and 86-97), empty store. -/
def initial : State := {}

/-- A sample session: switch on, toggle, calibrate (toggle back, commit 300), factory
reset, switch off and wake, and an unused click count. -/
def sampleSession : List Input :=
  [{ clicks := some 1, ramp := [.same 100, .same 512] },
   { clicks := some 2, ramp := [.same 800, .same 1023] },
   { clicks := some 3, pot := .same 300, calRamp := [.same 300],
     calib := [⟨none, .same 300⟩, ⟨some 2, .same 300⟩, ⟨some 3, .same 310⟩],
     ramp := [.same 300] },
   { flush := true },
   { clicks := some 10, ramp := [.same 512] },
   { clicks := some 1, offRamp := [.same 0], ramp := [.same 512] },
   { clicks := some 7 }]

/-- A state in mode 0 (ModeA) whose levels were edited to 77 and 900 and persisted. -/
def editedModeA : State :=
  { settings := { FIRST_LVL := 77, SECOND_LVL := 900, NUM_MODE := false }
    memory := { marker := true
                blob := { FIRST_LVL := 77, SECOND_LVL := 900, NUM_MODE := false } }
    NUM_MODE_ := 0
    newValue := 77 }

/-- The PWM write one pass of a timed ramp makes for interpolator values `e`
(lines 249-252 and 267-270). -/
def rampWrite (e : Calls) : Effect :=
  Effect.analogWrite (getBrightCRT (map (constrain e 0 1023) 0 1023 0 255))

/-- The PWM write of the live tracking of `set()` for raw readings `raw` (lines 299-302). -/
def trackWrite (raw : Calls) : Effect :=
  Effect.analogWrite (getBrightCRT (map (constrain raw 0 1023) 0 1023 0 225))

/-- The mode is one of the two active modes or Off. -/
def ModeOK (s : State) : Prop :=
  s.NUM_MODE_ = 0 ∨ s.NUM_MODE_ = 1 ∨ s.NUM_MODE_ = 2

/-- The mode is one of the two active modes. -/
def Active (s : State) : Prop :=
  s.NUM_MODE_ = 0 ∨ s.NUM_MODE_ = 1

/-- The call is neither a persistence commit request nor an erasure of the marker. -/
def NoRequest (e : Effect) : Prop :=
  e ≠ Effect.update ∧ e ≠ Effect.reset

/-- The calls `out` show the gated actions exactly when click count `val` asks for them
in an active mode: a potentiometer read (calibration) for 3, a commit request for 5, an
erasure of the marker (factory reset) for 10. -/
def Gated (val : Int) (active : Prop) (out : List Effect) : Prop :=
  ((∃ raw, Effect.analogRead raw ∈ out) ↔ val = 3 ∧ active) ∧
  (Effect.update ∈ out ↔ val = 5 ∧ active) ∧
  (Effect.reset ∈ out ↔ val = 10 ∧ active)

/-- The level of the mode recorded in `settings.NUM_MODE`. -/
def lastLevel (d : Data) : Int :=
  if d.NUM_MODE then d.SECOND_LVL else d.FIRST_LVL

/-- What holds between two passes of `loop()`: the mode is 0, 1 or 2, the target is the
one `setNewValue()` resolves for the mode, and `settings.NUM_MODE` mirrors an active
mode. -/
def Settled (s : State) : Prop :=
  ModeOK s ∧
  s.newValue =
    (if s.NUM_MODE_ = 0 then s.settings.FIRST_LVL
     else if s.NUM_MODE_ = 1 then s.settings.SECOND_LVL else 0) ∧
  (s.NUM_MODE_ = 0 → s.settings.NUM_MODE = false) ∧
  (s.NUM_MODE_ = 1 → s.settings.NUM_MODE = true)

/-- The pulse counts of the indicator blinks among the calls `out`, in order. -/
def blinkCounts (out : List Effect) : List Int :=
  out.filterMap fun e =>
    match e with
    | Effect.blink n _ _ => some n
    | _ => none

/-- The pulse counts `counts` are the ones the header comment gives for click count
`val` in mode `mode`: 1 for one click (once more after a wake-up), 2 for two clicks, 3 for
three clicks (followed, in an active mode, by the blinks of the calibration routine, each
of 2 or 3 pulses), 4 for five clicks and 5 for ten clicks in an active mode, none
otherwise. -/
def BlinkTable (mode : Int) (wake : Bool) (val : Int) (counts : List Int) : Prop :=
  (∀ n ∈ counts, 1 ≤ n ∧ n ≤ 5) ∧
  (val = 1 → counts = if mode = 2 then [1] else if wake then [1, 1] else [1]) ∧
  (val = 2 → counts = [2]) ∧
  (val = 3 → ∃ more, counts = 3 :: more ∧ (∀ n ∈ more, n = 2 ∨ n = 3) ∧
    (¬ (mode = 0 ∨ mode = 1) → more = [])) ∧
  (val = 5 → counts = if mode = 0 ∨ mode = 1 then [4] else []) ∧
  (val = 10 → counts = if mode = 0 ∨ mode = 1 then [5] else []) ∧
  (val ≠ 1 ∧ val ≠ 2 ∧ val ≠ 3 ∧ val ≠ 5 ∧ val ≠ 10 → counts = [])

/-! ## Shared lemmas: machine integers and the corrector -/

theorem toLong_eq (x : Int) (h1 : -2147483648 ≤ x) (h2 : x < 2147483648) : toLong x = x := by
  unfold toLong
  omega

theorem toInt_eq (x : Int) (h1 : -32768 ≤ x) (h2 : x < 32768) : toInt x = x := by
  unfold toInt
  omega

theorem cube_bounds (v : Int) (h0 : 0 ≤ v) (h1 : v ≤ 1023) :
    (0 ≤ v * v ∧ v * v ≤ 1046529) ∧ (0 ≤ v * v * v ∧ v * v * v ≤ 1070599167) := by
  have a : 0 ≤ v * v := mul_nonneg h0 h0
  have b : v * v ≤ 1023 * 1023 := mul_le_mul h1 h1 h0 (by norm_num)
  have c : 0 ≤ v * v * v := mul_nonneg a h0
  have d : v * v * v ≤ 1023 * 1023 * 1023 := mul_le_mul b h1 h0 (by norm_num)
  norm_num at b d
  exact ⟨⟨a, b⟩, ⟨c, d⟩⟩

theorem cube_mono (a b : Int) (h0 : 0 ≤ a) (h1 : a ≤ b) : a * a * a ≤ b * b * b := by
  have hb : 0 ≤ b := le_trans h0 h1
  have h2 : a * a ≤ b * b := mul_le_mul h1 h1 h0 hb
  exact mul_le_mul h2 h1 h0 (mul_nonneg hb hb)

/-- On the 10-bit range no conversion wraps: the corrector is the exact quotient. -/
theorem getBrightCRT_eq (v : Int) (h0 : 0 ≤ v) (h1 : v ≤ 1023) :
    getBrightCRT v = (v * v * v + 130305) / 65536 := by
  obtain ⟨⟨a, b⟩, ⟨c, d⟩⟩ := cube_bounds v h0 h1
  unfold getBrightCRT
  rw [toInt_eq v (by omega) (by omega), toLong_eq (v * v) (by omega) (by omega),
    toLong_eq (v * v * v) (by omega) (by omega),
    toLong_eq (v * v * v + 130305) (by omega) (by omega), Int.shiftRight_eq_div_pow]
  norm_num
  apply toInt_eq <;> omega

/-- The rescale of a 10-bit level to `[0, out_max]` is the truncated quotient. -/
theorem map_eq (L m : Int) (h0 : 0 ≤ L) (h1 : L ≤ 1023) (hm0 : 0 ≤ m) (hm1 : m ≤ 255) :
    map L 0 1023 0 m = L * m / 1023 := by
  have a : 0 ≤ L * m := mul_nonneg h0 hm0
  have b : L * m ≤ 1023 * 255 := mul_le_mul h1 hm1 hm0 (by norm_num)
  norm_num at b
  unfold map
  simp only [sub_zero, add_zero]
  rw [toLong_eq (L * m) (by omega) (by omega), toLong_eq 1023 (by norm_num) (by norm_num),
    Int.tdiv_eq_ediv a (by norm_num)]
  apply toLong_eq <;> omega

theorem map_255_range (L : Int) (h0 : 0 ≤ L) (h1 : L ≤ 1023) :
    0 ≤ map L 0 1023 0 255 ∧ map L 0 1023 0 255 ≤ 255 := by
  rw [map_eq L 255 h0 h1 (by norm_num) (by norm_num)]
  omega

theorem clamp_range (x : Int) : 0 ≤ clamp x 0 1023 ∧ clamp x 0 1023 ≤ 1023 := by
  unfold clamp
  split_ifs <;> omega

/-- When every evaluation returns the same value the macro is the clamp. -/
theorem constrain_same (x low high : Int) :
    constrain (Calls.same x) low high = clamp x low high := rfl

/-- When the last evaluation is a 10-bit value, so is the value of the macro. -/
theorem constrain_range (c : Calls) (h0 : 0 ≤ c.third) (h1 : c.third ≤ 1023) :
    0 ≤ constrain c 0 1023 ∧ constrain c 0 1023 ≤ 1023 := by
  unfold constrain
  split_ifs <;> omega

theorem getBrightCRT_range8 (v : Int) (h0 : 0 ≤ v) (h1 : v ≤ 255) :
    0 ≤ getBrightCRT v ∧ getBrightCRT v ≤ 255 := by
  rw [getBrightCRT_eq v h0 (by omega)]
  have d : v * v * v ≤ 255 * 255 * 255 := cube_mono v 255 h0 h1
  have c : 0 ≤ v * v * v := mul_nonneg (mul_nonneg h0 h0) h0
  norm_num at d
  omega

/-! ## C1: boundary values of the corrector -/

/-- C1, as stated, fails: the lower boundary is not a fixed point, since
`getBrightCRT 0 = 130305 >> 16 = 1`. -/
theorem C1_lower_boundary_not_fixed :
    ¬ (getBrightCRT 0 = 0 ∧ getBrightCRT 255 = 255) := by
  decide

/-- C1, amended: in the 8-bit build the upper boundary is a fixed point,
`getBrightCRT 255 = 255`, and the lower boundary is mapped to `getBrightCRT 0 = 1`. -/
theorem C1_boundary_values : getBrightCRT 255 = 255 ∧ getBrightCRT 0 = 1 := by
  decide

/-! ## C2: monotonicity of the corrector -/

/-- C2: `getBrightCRT` is monotonically non-decreasing on `[0, 1023]`. -/
theorem C2_getBrightCRT_monotone (a b : Int) (h0 : 0 ≤ a) (hab : a ≤ b) (h1 : b ≤ 1023) :
    getBrightCRT a ≤ getBrightCRT b := by
  rw [getBrightCRT_eq a h0 (le_trans hab h1), getBrightCRT_eq b (le_trans h0 hab) h1]
  apply Int.ediv_le_ediv (by norm_num)
  have := cube_mono a b h0 hab
  omega

theorem C2_getBrightCRT_monotone_witness :
    getBrightCRT 100 ≤ getBrightCRT 1023 ∧ getBrightCRT 100 = 17 ∧
      getBrightCRT 1023 = 16338 :=
  ⟨C2_getBrightCRT_monotone 100 1023 (by decide) (by decide) (by decide), by decide, by decide⟩

/-! ## C3: the value written to the PWM output is 8-bit -/

/-- C3: for `v` in `[0, 255]` the corrected value lies in `[0, 255]`; for a linear level
`L` in `[0, 1023]` the rescale of `transit()` is `L * 255 / 1023` and the value written,
`getBrightCRT (map L 0 1023 0 255)`, lies in `[0, 255]`; and one pass of the timed loop of
`transit()` writes `getBrightCRT (map NOW_LVL 0 1023 0 255)`, which lies in `[0, 255]`
when the level `NOW_LVL` it has set lies in `[0, 1023]`. -/
theorem C3_pwm_output_range (v L : Int) (hv0 : 0 ≤ v) (hv1 : v ≤ 255) (hL0 : 0 ≤ L)
    (hL1 : L ≤ 1023) :
    (0 ≤ getBrightCRT v ∧ getBrightCRT v ≤ 255) ∧
    map L 0 1023 0 255 = L * 255 / 1023 ∧
    (0 ≤ getBrightCRT (map L 0 1023 0 255) ∧ getBrightCRT (map L 0 1023 0 255) ≤ 255) ∧
    ∀ (s : State) (e : Calls),
      (transitStep s e).trace = s.trace ++ [Effect.analogWrite (transitStep s e).NOW_LVL_CRT] ∧
      (transitStep s e).NOW_LVL_CRT = getBrightCRT (map (transitStep s e).NOW_LVL 0 1023 0 255) ∧
      (0 ≤ (transitStep s e).NOW_LVL ∧ (transitStep s e).NOW_LVL ≤ 1023 →
        0 ≤ (transitStep s e).NOW_LVL_CRT ∧ (transitStep s e).NOW_LVL_CRT ≤ 255) := by
  refine ⟨getBrightCRT_range8 v hv0 hv1, map_eq L 255 hL0 hL1 (by norm_num) (by norm_num), ?_, ?_⟩
  · obtain ⟨a, b⟩ := map_255_range L hL0 hL1
    exact getBrightCRT_range8 _ a b
  · intro s e
    refine ⟨rfl, rfl, ?_⟩
    intro h
    obtain ⟨a, b⟩ := map_255_range (transitStep s e).NOW_LVL h.1 h.2
    exact getBrightCRT_range8 _ a b

theorem C3_pwm_output_range_witness :
    (0 ≤ getBrightCRT 255 ∧ getBrightCRT 255 ≤ 255) ∧
    map 512 0 1023 0 255 = 512 * 255 / 1023 ∧
    (0 ≤ getBrightCRT (map 512 0 1023 0 255) ∧ getBrightCRT (map 512 0 1023 0 255) ≤ 255) :=
  ⟨(C3_pwm_output_range 255 512 (by decide) (by decide) (by decide) (by decide)).1,
    (C3_pwm_output_range 255 512 (by decide) (by decide) (by decide) (by decide)).2.1,
    (C3_pwm_output_range 255 512 (by decide) (by decide) (by decide) (by decide)).2.2.1⟩

/-! ## Shared lemmas: what the building blocks change -/

theorem foldl_transitStep (ramp : List Calls) (s : State) :
    (ramp.foldl transitStep s).settings = s.settings ∧
    (ramp.foldl transitStep s).memory = s.memory ∧
    (ramp.foldl transitStep s).newValue = s.newValue ∧
    (ramp.foldl transitStep s).NUM_MODE_ = s.NUM_MODE_ ∧
    (ramp.foldl transitStep s).trace = s.trace ++ ramp.map rampWrite := by
  induction ramp generalizing s with
  | nil => simp
  | cons e r ih =>
    obtain ⟨h1, h2, h3, h4, h5⟩ := ih (transitStep s e)
    simp only [List.foldl_cons, List.map_cons]
    refine ⟨h1, h2, h3, h4, ?_⟩
    rw [h5]
    simp [transitStep, rampWrite]

theorem foldl_setRampStep (ramp : List Calls) (s : State) :
    (ramp.foldl setRampStep s).settings = s.settings ∧
    (ramp.foldl setRampStep s).memory = s.memory ∧
    (ramp.foldl setRampStep s).NUM_MODE_ = s.NUM_MODE_ ∧
    (ramp.foldl setRampStep s).trace = s.trace ++ ramp.map rampWrite := by
  induction ramp generalizing s with
  | nil => simp
  | cons e r ih =>
    obtain ⟨h1, h2, h3, h4⟩ := ih (setRampStep s e)
    simp only [List.foldl_cons, List.map_cons]
    refine ⟨h1, h2, h3, ?_⟩
    rw [h4]
    simp [setRampStep, emit, rampWrite]

theorem setNewValue_frame (s : State) :
    (setNewValue s).NUM_MODE_ = s.NUM_MODE_ ∧
    (setNewValue s).settings.FIRST_LVL = s.settings.FIRST_LVL ∧
    (setNewValue s).settings.SECOND_LVL = s.settings.SECOND_LVL ∧
    (setNewValue s).memory = s.memory ∧
    (setNewValue s).trace = s.trace := by
  unfold setNewValue
  split_ifs <;> simp

theorem setNewValue_NUM_MODE (s : State) :
    (setNewValue s).settings.NUM_MODE =
      if s.NUM_MODE_ = 0 then false else if s.NUM_MODE_ = 1 then true
      else s.settings.NUM_MODE := by
  unfold setNewValue
  split_ifs <;> simp

theorem setNewValue_newValue (s : State) :
    (setNewValue s).newValue =
      if s.NUM_MODE_ = 0 then s.settings.FIRST_LVL
      else if s.NUM_MODE_ = 1 then s.settings.SECOND_LVL
      else if s.NUM_MODE_ = 2 then 0
      else if s.NUM_MODE_ = 3 then 1023
      else s.newValue := by
  unfold setNewValue
  split_ifs <;> simp [OFF, MAX]

theorem transit_frame (s : State) (ramp : List Calls) :
    (transit s ramp).NUM_MODE_ = s.NUM_MODE_ ∧
    (transit s ramp).settings.FIRST_LVL = s.settings.FIRST_LVL ∧
    (transit s ramp).settings.SECOND_LVL = s.settings.SECOND_LVL ∧
    (transit s ramp).memory = s.memory ∧
    (transit s ramp).trace = s.trace ++ ramp.map rampWrite := by
  obtain ⟨h1, h2, _, h4, h5⟩ := foldl_transitStep ramp (setNewValue s)
  obtain ⟨g1, g2, g3, g4, g5⟩ := setNewValue_frame s
  unfold transit
  rw [h1, h2, h4, h5]
  exact ⟨g1, g2, g3, g4, by rw [g5]⟩

theorem transit_NUM_MODE (s : State) (ramp : List Calls) :
    (transit s ramp).settings.NUM_MODE =
      if s.NUM_MODE_ = 0 then false else if s.NUM_MODE_ = 1 then true
      else s.settings.NUM_MODE := by
  unfold transit
  rw [(foldl_transitStep ramp (setNewValue s)).1, setNewValue_NUM_MODE]

theorem transit_newValue (s : State) (ramp : List Calls) :
    (transit s ramp).newValue =
      if s.NUM_MODE_ = 0 then s.settings.FIRST_LVL
      else if s.NUM_MODE_ = 1 then s.settings.SECOND_LVL
      else if s.NUM_MODE_ = 2 then 0
      else if s.NUM_MODE_ = 3 then 1023
      else s.newValue := by
  unfold transit
  rw [(foldl_transitStep ramp (setNewValue s)).2.2.1, setNewValue_newValue]

theorem data_ext (a b : Data) (h1 : a.FIRST_LVL = b.FIRST_LVL) (h2 : a.SECOND_LVL = b.SECOND_LVL)
    (h3 : a.NUM_MODE = b.NUM_MODE) : a = b := by
  cases a
  cases b
  simp_all

theorem boolToInt_cases (b : Bool) :
    (b = false ∧ boolToInt b = 0) ∨ (b = true ∧ boolToInt b = 1) := by
  cases b <;> simp [boolToInt]

/-- After a transition from a mode that mirrors `settings.NUM_MODE`, the settings are
the ones before it, and the target is the level of that mode. -/
theorem transit_lastActive (s : State) (ramp : List Calls)
    (h : s.NUM_MODE_ = boolToInt s.settings.NUM_MODE) :
    (transit s ramp).settings = s.settings ∧
    (transit s ramp).newValue = lastLevel s.settings := by
  obtain ⟨_, g2, g3, _, _⟩ := transit_frame s ramp
  have g4 := transit_NUM_MODE s ramp
  have g5 := transit_newValue s ramp
  rcases boolToInt_cases s.settings.NUM_MODE with ⟨hb, hi⟩ | ⟨hb, hi⟩
  · rw [hi] at h
    rw [h] at g4 g5
    simp only [if_true] at g4 g5
    exact ⟨data_ext _ _ g2 g3 (by rw [g4, hb]), by rw [g5]; simp [lastLevel, hb]⟩
  · rw [hi] at h
    rw [h] at g4 g5
    norm_num at g4 g5
    exact ⟨data_ext _ _ g2 g3 (by rw [g4, hb]), by rw [g5]; simp [lastLevel, hb]⟩

theorem memoryTick_frame (s : State) (f : Bool) :
    (memoryTick s f).settings = s.settings ∧
    (memoryTick s f).NUM_MODE_ = s.NUM_MODE_ ∧
    (memoryTick s f).newValue = s.newValue ∧
    (memoryTick s f).trace = s.trace := by
  unfold memoryTick
  split_ifs <;> simp

theorem loop_clicks (s : State) (i : Input) (val : Int) (hc : i.clicks = some val) :
    loop s i =
      match loopSwitch (memoryTick s i.flush) val i with
      | Except.ok s1 => Except.ok (transit s1 i.ramp)
      | Except.error s1 => Except.error s1 := by
  unfold loop
  rw [hc]

/-! ## C5: one click while Off -/

/-- C5: from a state whose mode is Off, a pass of `loop()` with one click returns with
the mode set to the persisted last active mode, after exactly one transition (the blink
and the PWM writes of one ramp are the only calls, none is a sleep request) whose target
is the persisted level of that mode, and the settings are unchanged.  With the default
settings the mode is 0 (ModeA) and the target is 512. -/
theorem C5_one_click_from_off (s : State) (i : Input) (hm : s.NUM_MODE_ = 2)
    (hc : i.clicks = some 1) :
    ∃ s1, loop s i = Except.ok s1 ∧
      s1.NUM_MODE_ = boolToInt s.settings.NUM_MODE ∧
      s1.newValue = lastLevel s.settings ∧
      s1.trace = s.trace ++ Effect.blink 1 100 100 :: i.ramp.map rampWrite ∧
      Effect.sleep ∉ Effect.blink 1 100 100 :: i.ramp.map rampWrite ∧
      s1.settings = s.settings ∧
      (s.settings = {} → s1.NUM_MODE_ = 0 ∧ s1.newValue = 512) := by
  obtain ⟨t1, t2, _, t4⟩ := memoryTick_frame s i.flush
  have hsw : loopSwitch (memoryTick s i.flush) 1 i =
      Except.ok { emit (memoryTick s i.flush) (Effect.blink 1 100 100) with
        NUM_MODE_ := boolToInt s.settings.NUM_MODE } := by
    simp [loopSwitch, emit, t2, hm, t1]
  rw [loop_clicks s i 1 hc, hsw]
  refine ⟨_, rfl, ?_⟩
  generalize hq : ({ emit (memoryTick s i.flush) (Effect.blink 1 100 100) with
        NUM_MODE_ := boolToInt s.settings.NUM_MODE } : State) = q
  have q1 : q.settings = s.settings := by rw [← hq]; simpa [emit] using t1
  have q2 : q.NUM_MODE_ = boolToInt s.settings.NUM_MODE := by rw [← hq]
  have q3 : q.trace = s.trace ++ [Effect.blink 1 100 100] := by rw [← hq]; simp [emit, t4]
  obtain ⟨f1, _, _, _, f5⟩ := transit_frame q i.ramp
  obtain ⟨l1, l2⟩ := transit_lastActive q i.ramp (by rw [q2, q1])
  have hmode : (transit q i.ramp).NUM_MODE_ = boolToInt s.settings.NUM_MODE := by rw [f1, q2]
  have hval : (transit q i.ramp).newValue = lastLevel s.settings := by rw [l2, q1]
  refine ⟨hmode, hval, ?_, ?_, by rw [l1, q1], ?_⟩
  · rw [f5, q3]
    simp
  · simp [rampWrite]
  · intro hd
    rw [hmode, hval, hd]
    decide

theorem C5_one_click_from_off_witness :
    ∃ s1, loop initial { clicks := some 1, ramp := [.same 100, .same 512] } = Except.ok s1 ∧
      s1.NUM_MODE_ = 0 ∧ s1.newValue = 512 ∧
      s1.trace = [Effect.blink 1 100 100, Effect.analogWrite 2, Effect.analogWrite 33] := by
  obtain ⟨s1, h, _, _, h4, _, _, h7⟩ :=
    C5_one_click_from_off initial { clicks := some 1, ramp := [.same 100, .same 512] } rfl rfl
  refine ⟨s1, h, (h7 rfl).1, (h7 rfl).2, ?_⟩
  rw [h4]
  decide

/-! ## C6: one click while not Off -/

/-- C6: from a state whose mode is not Off, a pass of `loop()` with one click sets the
mode to Off, runs a transition with target 0 and requests sleep: without the wake
interrupt the pass stays blocked there, in mode Off.  With the wake interrupt the mode is
restored to the persisted last active mode and a transition to the persisted level of that
mode is run.  The settings (both levels and the last active mode) are the same after the
pass as before it. -/
theorem C6_one_click_from_active (s : State) (i : Input) (hm : s.NUM_MODE_ ≠ 2)
    (hc : i.clicks = some 1) :
    ∃ q s1,
      loop s { i with wake := false } = Except.error q ∧
      q.NUM_MODE_ = 2 ∧ q.newValue = 0 ∧ q.settings = s.settings ∧
      q.trace = s.trace ++ Effect.blink 1 100 100 :: i.offRamp.map rampWrite ++ [Effect.sleep] ∧
      loop s { i with wake := true } = Except.ok s1 ∧
      s1.NUM_MODE_ = boolToInt s.settings.NUM_MODE ∧
      s1.newValue = lastLevel s.settings ∧
      s1.settings = s.settings ∧
      s1.trace = q.trace ++ Effect.blink 1 100 100 :: i.ramp.map rampWrite := by
  obtain ⟨t1, t2, _, t4⟩ := memoryTick_frame s i.flush
  generalize ht : memoryTick s i.flush = t at t1 t2 t4
  have hne : t.NUM_MODE_ ≠ 2 := by rw [t2]; exact hm
  generalize hp : ({ emit t (Effect.blink 1 100 100) with NUM_MODE_ := 2 } : State) = p
  have p1 : p.settings = s.settings := by rw [← hp]; simpa [emit] using t1
  have p2 : p.NUM_MODE_ = 2 := by rw [← hp]
  have p3 : p.trace = s.trace ++ [Effect.blink 1 100 100] := by rw [← hp]; simp [emit, t4]
  obtain ⟨f1, f2, f3, _, f5⟩ := transit_frame p i.offRamp
  have f6 := transit_NUM_MODE p i.offRamp
  have f7 := transit_newValue p i.offRamp
  rw [p2] at f6 f7
  norm_num at f6 f7
  generalize hq : emit (transit p i.offRamp) Effect.sleep = q
  have q1 : q.settings = s.settings := by
    rw [← hq, ← p1]
    exact data_ext _ _ f2 f3 f6
  have q2 : q.NUM_MODE_ = 2 := by rw [← hq]; simpa [emit, p2] using f1
  have q3 : q.newValue = 0 := by rw [← hq]; simpa [emit] using f7
  have q4 : q.trace = s.trace ++ Effect.blink 1 100 100 :: i.offRamp.map rampWrite ++
      [Effect.sleep] := by
    rw [← hq]
    simp [emit, f5, p3]
  generalize hw : ({ emit q (Effect.blink 1 100 100) with
      NUM_MODE_ := boolToInt q.settings.NUM_MODE } : State) = w
  have w1 : w.settings = s.settings := by rw [← hw]; simpa [emit] using q1
  have w2 : w.NUM_MODE_ = boolToInt s.settings.NUM_MODE := by rw [← hw, ← q1]
  have w3 : w.trace = q.trace ++ [Effect.blink 1 100 100] := by rw [← hw]; simp [emit]
  obtain ⟨g1, _, _, _, g5⟩ := transit_frame w i.ramp
  obtain ⟨l1, l2⟩ := transit_lastActive w i.ramp (by rw [w2, w1])
  have hblocked : loopSwitch t 1 { i with wake := false } = Except.error q := by
    rw [← hq, ← hp]
    simp [loopSwitch, emit, hne]
  have hwoken : loopSwitch t 1 { i with wake := true } = Except.ok w := by
    rw [← hw, ← hq, ← hp]
    simp [loopSwitch, emit, hne]
  refine ⟨q, transit w i.ramp, ?_, q2, q3, q1, q4, ?_, by rw [g1, w2], by rw [l2, w1],
    by rw [l1, w1], ?_⟩
  · rw [loop_clicks s { i with wake := false } 1 hc]
    show (match loopSwitch (memoryTick s i.flush) 1 { i with wake := false } with
      | Except.ok s1 => Except.ok (transit s1 i.ramp)
      | Except.error s1 => Except.error s1) = Except.error q
    rw [ht, hblocked]
  · rw [loop_clicks s { i with wake := true } 1 hc]
    show (match loopSwitch (memoryTick s i.flush) 1 { i with wake := true } with
      | Except.ok s1 => Except.ok (transit s1 i.ramp)
      | Except.error s1 => Except.error s1) = Except.ok (transit w i.ramp)
    rw [ht, hwoken]
  · rw [g5, w3]
    simp

theorem C6_one_click_from_active_witness :
    ∃ q s1,
      loop { initial with NUM_MODE_ := 1, settings := { NUM_MODE := true } }
        { clicks := some 1, offRamp := [.same 0], ramp := [.same 1023], wake := false } = Except.error q ∧
      q.NUM_MODE_ = 2 ∧ q.newValue = 0 ∧
      q.trace = [Effect.blink 1 100 100, Effect.analogWrite 1, Effect.sleep] ∧
      loop { initial with NUM_MODE_ := 1, settings := { NUM_MODE := true } }
        { clicks := some 1, offRamp := [.same 0], ramp := [.same 1023], wake := true } = Except.ok s1 ∧
      s1.NUM_MODE_ = 1 ∧ s1.newValue = 1023 ∧
      s1.trace = [Effect.blink 1 100 100, Effect.analogWrite 1, Effect.sleep,
        Effect.blink 1 100 100, Effect.analogWrite 255] := by
  obtain ⟨q, s1, h1, h2, h3, _, h5, h6, h7, h8, _, h10⟩ :=
    C6_one_click_from_active { initial with NUM_MODE_ := 1, settings := { NUM_MODE := true } }
      { clicks := some 1, offRamp := [.same 0], ramp := [.same 1023] } (by decide) rfl
  refine ⟨q, s1, h1, h2, h3, ?_, h6, ?_, ?_, ?_⟩
  · rw [h5]
    decide
  · rw [h7]
    decide
  · rw [h8]
    decide
  · rw [h10, h5]
    decide

/-! ## C7: two clicks -/

theorem toggleMode_frame (s : State) :
    (toggleMode s).NUM_MODE_ =
      (if s.NUM_MODE_ = 0 then 1 else if s.NUM_MODE_ = 1 then 0 else s.NUM_MODE_) ∧
    (toggleMode s).settings = s.settings ∧
    (toggleMode s).memory = s.memory ∧
    (toggleMode s).newValue = s.newValue ∧
    (toggleMode s).trace = s.trace := by
  unfold toggleMode
  split_ifs <;> simp

/-- A pass of `loop()` with two clicks: the mode is toggled, the levels are kept, the
transition targets the level of the resulting mode. -/
theorem loop_two_clicks (s : State) (i : Input) (hi : i.clicks = some 2) :
    ∃ s1, loop s i = Except.ok s1 ∧
      s1.NUM_MODE_ =
        (if s.NUM_MODE_ = 0 then 1 else if s.NUM_MODE_ = 1 then 0 else s.NUM_MODE_) ∧
      s1.newValue =
        (if s1.NUM_MODE_ = 0 then s.settings.FIRST_LVL
         else if s1.NUM_MODE_ = 1 then s.settings.SECOND_LVL
         else if s1.NUM_MODE_ = 2 then 0
         else if s1.NUM_MODE_ = 3 then 1023
         else s.newValue) ∧
      s1.settings.FIRST_LVL = s.settings.FIRST_LVL ∧
      s1.settings.SECOND_LVL = s.settings.SECOND_LVL ∧
      s1.trace = s.trace ++ Effect.blink 2 100 100 :: i.ramp.map rampWrite := by
  obtain ⟨t1, t2, t3, t4⟩ := memoryTick_frame s i.flush
  have hsw : loopSwitch (memoryTick s i.flush) 2 i =
      Except.ok (toggleMode (emit (memoryTick s i.flush) (Effect.blink 2 100 100))) := by
    simp [loopSwitch]
  rw [loop_clicks s i 2 hi, hsw]
  obtain ⟨g1, g2, _, g4, g5⟩ :=
    toggleMode_frame (emit (memoryTick s i.flush) (Effect.blink 2 100 100))
  generalize toggleMode (emit (memoryTick s i.flush) (Effect.blink 2 100 100)) = q
    at g1 g2 g4 g5
  have e1 : (emit (memoryTick s i.flush) (Effect.blink 2 100 100)).NUM_MODE_ = s.NUM_MODE_ := t2
  have e2 : (emit (memoryTick s i.flush) (Effect.blink 2 100 100)).settings = s.settings := t1
  have e3 : (emit (memoryTick s i.flush) (Effect.blink 2 100 100)).newValue = s.newValue := t3
  have e4 : (emit (memoryTick s i.flush) (Effect.blink 2 100 100)).trace =
      s.trace ++ [Effect.blink 2 100 100] := by simp [emit, t4]
  rw [e1] at g1
  rw [e2] at g2
  rw [e3] at g4
  rw [e4] at g5
  obtain ⟨f1, f2, f3, _, f5⟩ := transit_frame q i.ramp
  have f7 := transit_newValue q i.ramp
  refine ⟨_, rfl, by rw [f1, g1], ?_, by rw [f2, g2], by rw [f3, g2], ?_⟩
  · rw [f7, f1, g2, g4]
  · rw [f5, g5]
    simp

/-- C7: a pass of `loop()` with two clicks takes mode 0 (ModeA) to 1 (ModeB) and mode 1
to 0 and leaves every other mode (Off, Max) unchanged; after it the transition targets
the persisted level of the new mode.  Two such passes in a row return the mode to its
original value and leave both levels unchanged. -/
theorem C7_two_clicks_toggle (s : State) (i j : Input) (hi : i.clicks = some 2)
    (hj : j.clicks = some 2) :
    ∃ s1 s2, loop s i = Except.ok s1 ∧ loop s1 j = Except.ok s2 ∧
      s1.NUM_MODE_ =
        (if s.NUM_MODE_ = 0 then 1 else if s.NUM_MODE_ = 1 then 0 else s.NUM_MODE_) ∧
      (s.NUM_MODE_ = 0 → s1.newValue = s.settings.SECOND_LVL) ∧
      (s.NUM_MODE_ = 1 → s1.newValue = s.settings.FIRST_LVL) ∧
      s1.settings.FIRST_LVL = s.settings.FIRST_LVL ∧
      s1.settings.SECOND_LVL = s.settings.SECOND_LVL ∧
      s2.NUM_MODE_ = s.NUM_MODE_ ∧
      s2.settings.FIRST_LVL = s.settings.FIRST_LVL ∧
      s2.settings.SECOND_LVL = s.settings.SECOND_LVL := by
  obtain ⟨s1, h1, m1, v1, a1, b1, _⟩ := loop_two_clicks s i hi
  obtain ⟨s2, h2, m2, _, a2, b2, _⟩ := loop_two_clicks s1 j hj
  refine ⟨s1, s2, h1, h2, m1, ?_, ?_, a1, b1, ?_, by rw [a2, a1], by rw [b2, b1]⟩
  · intro h0
    rw [h0] at m1
    rw [v1, m1]
    norm_num
  · intro h0
    rw [h0] at m1
    rw [v1, m1]
    norm_num
  · rw [m2, m1]
    split_ifs <;> simp_all

theorem C7_two_clicks_toggle_witness :
    ∃ s1 s2,
      loop { initial with NUM_MODE_ := 0 } { clicks := some 2, ramp := [.same 1023] } = Except.ok s1 ∧
      loop s1 { clicks := some 2, ramp := [.same 512] } = Except.ok s2 ∧
      s1.NUM_MODE_ = 1 ∧ s1.newValue = 1023 ∧ s2.NUM_MODE_ = 0 ∧
      s2.settings.FIRST_LVL = 512 ∧ s2.settings.SECOND_LVL = 1023 := by
  obtain ⟨s1, s2, h1, h2, m1, v1, _, _, _, m2, a2, b2⟩ :=
    C7_two_clicks_toggle { initial with NUM_MODE_ := 0 } { clicks := some 2, ramp := [.same 1023] }
      { clicks := some 2, ramp := [.same 512] } rfl rfl
  exact ⟨s1, s2, h1, h2, m1, v1 rfl, m2, a2, b2⟩

/-! ## Shared lemmas: the potentiometer reads of one clamp -/

theorem potReads_head (c : Calls) :
    ∃ more, potReads c = Effect.analogRead c.first :: more ∧
      ∀ e ∈ more, ∃ r, e = Effect.analogRead r := by
  unfold potReads callsMade
  split_ifs
  · exact ⟨[], rfl, by simp⟩
  · exact ⟨[Effect.analogRead c.second], rfl, by simp⟩
  · exact ⟨[Effect.analogRead c.second, Effect.analogRead c.third], rfl, by simp⟩

theorem potReads_read (c : Calls) : ∀ e ∈ potReads c, ∃ r, e = Effect.analogRead r := by
  obtain ⟨more, h, hm⟩ := potReads_head c
  intro e he
  rw [h] at he
  rcases List.mem_cons.mp he with h1 | h1
  · exact ⟨c.first, h1⟩
  · exact hm e h1

theorem potReads_noRequest (c : Calls) : ∀ e ∈ potReads c, NoRequest e := by
  intro e he
  obtain ⟨r, hr⟩ := potReads_read c e he
  subst hr
  simp [NoRequest]

theorem blinkCounts_potReads (c : Calls) : blinkCounts (potReads c) = [] := by
  unfold potReads callsMade
  split_ifs <;> rfl

theorem readPot_trace (s : State) (c : Calls) :
    (readPot s c).trace = s.trace ++ potReads c := rfl

/-! ## Shared lemmas: the calibration routine -/

theorem setClicks_frame (s : State) (now val : Int) :
    (setClicks s now val).1.NUM_MODE_ =
      (if val = 2 then
        (if s.NUM_MODE_ = 0 then 1 else if s.NUM_MODE_ = 1 then 0 else s.NUM_MODE_)
       else s.NUM_MODE_) ∧
    (setClicks s now val).1.settings.FIRST_LVL =
      (if val = 3 ∧ s.NUM_MODE_ = 0 then now else s.settings.FIRST_LVL) ∧
    (setClicks s now val).1.settings.SECOND_LVL =
      (if val = 3 ∧ s.NUM_MODE_ = 1 then now else s.settings.SECOND_LVL) ∧
    (setClicks s now val).1.settings.NUM_MODE = s.settings.NUM_MODE ∧
    (setClicks s now val).1.memory = s.memory ∧
    (setClicks s now val).1.trace =
      s.trace ++ (if val = 2 then [Effect.blink 2 100 100] else []) ∧
    (setClicks s now val).2 = (if val = 3 ∨ val = 4 then false else true) := by
  by_cases h2 : val = 2
  · subst h2
    obtain ⟨g1, g2, g3, _, g5⟩ := toggleMode_frame (emit s (Effect.blink 2 100 100))
    simp only [setClicks]
    norm_num
    rw [g1, g2, g3, g5]
    simp [emit]
  · by_cases h3 : val = 3
    · subst h3
      simp only [setClicks]
      norm_num
      by_cases m0 : s.NUM_MODE_ = 0
      · simp [m0]
      · by_cases m1 : s.NUM_MODE_ = 1
        · simp [m1]
        · simp [m0, m1]
    · by_cases h4 : val = 4
      · subst h4
        simp [setClicks]
      · simp [setClicks, h2, h3, h4]

theorem stateOf_ok (s : State) : stateOf (Except.ok s) = s := rfl

theorem stateOf_error (s : State) : stateOf (Except.error s) = s := rfl

/-- One pass of `while (restart)`, unfolded. -/
theorem setLoop_cons (s : State) (now : Int) (c : CalibStep) (rest : List CalibStep) :
    setLoop s now (c :: rest) =
      if (match c.clicks with
          | some val => setClicks s now val
          | none => (s, true)).2
      then setLoop (emit (readPot (match c.clicks with
          | some val => setClicks s now val
          | none => (s, true)).1 c.pot) (trackWrite c.pot))
        (constrain c.pot 0 1023) rest
      else Except.ok (emit (readPot (match c.clicks with
          | some val => setClicks s now val
          | none => (s, true)).1 c.pot) (trackWrite c.pot)) := by
  rfl

/-- The click handling of one pass of `while (restart)`, with or without a click event. -/
theorem calibStep_frame (s : State) (now : Int) (c : CalibStep) :
    ∃ q b, (match c.clicks with
        | some val => setClicks s now val
        | none => (s, true)) = (q, b) ∧
      q.NUM_MODE_ =
        (if c.clicks = some 2 then
          (if s.NUM_MODE_ = 0 then 1 else if s.NUM_MODE_ = 1 then 0 else s.NUM_MODE_)
         else s.NUM_MODE_) ∧
      q.settings.FIRST_LVL =
        (if c.clicks = some 3 ∧ s.NUM_MODE_ = 0 then now else s.settings.FIRST_LVL) ∧
      q.settings.SECOND_LVL =
        (if c.clicks = some 3 ∧ s.NUM_MODE_ = 1 then now else s.settings.SECOND_LVL) ∧
      q.settings.NUM_MODE = s.settings.NUM_MODE ∧
      q.memory = s.memory ∧
      q.trace = s.trace ++ (if c.clicks = some 2 then [Effect.blink 2 100 100] else []) ∧
      b = (if c.clicks = some 3 ∨ c.clicks = some 4 then false else true) := by
  cases hc : c.clicks with
  | none => exact ⟨s, true, rfl, by simp⟩
  | some val =>
    obtain ⟨g1, g2, g3, g4, g5, g6, g7⟩ := setClicks_frame s now val
    refine ⟨(setClicks s now val).1, (setClicks s now val).2, rfl, ?_⟩
    simp only [Option.some.injEq]
    exact ⟨g1, g2, g3, g4, g5, g6, g7⟩

theorem toggled_modeOK (m : Int) (h : m = 0 ∨ m = 1 ∨ m = 2) :
    (if m = 0 then (1 : Int) else if m = 1 then 0 else m) = 0 ∨
    (if m = 0 then (1 : Int) else if m = 1 then 0 else m) = 1 ∨
    (if m = 0 then (1 : Int) else if m = 1 then 0 else m) = 2 := by
  rcases h with h | h | h <;> simp [h]

theorem toggled_active (m : Int) (h : m = 0 ∨ m = 1) :
    (if m = 0 then (1 : Int) else if m = 1 then 0 else m) = 0 ∨
    (if m = 0 then (1 : Int) else if m = 1 then 0 else m) = 1 := by
  rcases h with h | h <;> simp [h]

/-- What the loop `while (restart)` keeps, whether it returns or is still waiting. -/
theorem setLoop_inv (l : List CalibStep) : ∀ (s : State) (now : Int),
    (ModeOK s → ModeOK (stateOf (setLoop s now l))) ∧
    (Active s → Active (stateOf (setLoop s now l))) ∧
    (stateOf (setLoop s now l)).memory = s.memory ∧
    (stateOf (setLoop s now l)).settings.NUM_MODE = s.settings.NUM_MODE ∧
    ∃ out, (stateOf (setLoop s now l)).trace = s.trace ++ out ∧ ∀ e ∈ out, NoRequest e := by
  induction l with
  | nil =>
    intro s now
    exact ⟨fun h => h, fun h => h, rfl, rfl, [], by simp [setLoop, stateOf], by simp⟩
  | cons c rest ih =>
    intro s now
    obtain ⟨q, b, hqb, q1, _, _, q4, q5, q6, _⟩ := calibStep_frame s now c
    rw [setLoop_cons, hqb]
    have hmode : ModeOK s → ModeOK q := by
      intro h
      unfold ModeOK
      rw [q1]
      by_cases hc2 : c.clicks = some 2
      · rw [if_pos hc2]
        exact toggled_modeOK _ h
      · rw [if_neg hc2]
        exact h
    have hact : Active s → Active q := by
      intro h
      unfold Active
      rw [q1]
      by_cases hc2 : c.clicks = some 2
      · rw [if_pos hc2]
        exact toggled_active _ h
      · rw [if_neg hc2]
        exact h
    generalize hq2 : emit (readPot q c.pot) (trackWrite c.pot) = q2
    have e1 : q2.NUM_MODE_ = q.NUM_MODE_ := by rw [← hq2]; rfl
    have e2 : q2.memory = s.memory := by rw [← hq2]; exact q5
    have e3 : q2.settings.NUM_MODE = s.settings.NUM_MODE := by rw [← hq2]; exact q4
    have e4 : q2.trace = s.trace ++ ((if c.clicks = some 2 then [Effect.blink 2 100 100] else [])
        ++ (potReads c.pot ++ [trackWrite c.pot])) := by
      rw [← hq2]
      simp [emit, readPot, q6]
    have hquiet : ∀ e ∈ (if c.clicks = some 2 then [Effect.blink 2 100 100] else [])
        ++ (potReads c.pot ++ [trackWrite c.pot]), NoRequest e := by
      intro e he
      rcases List.mem_append.mp he with h | h
      · by_cases hc2 : c.clicks = some 2
        · rw [if_pos hc2, List.mem_singleton] at h
          subst h
          simp [NoRequest]
        · rw [if_neg hc2] at h
          simp at h
      · rcases List.mem_append.mp h with h | h
        · exact potReads_noRequest c.pot e h
        · rw [List.mem_singleton] at h
          subst h
          simp [NoRequest, trackWrite]
    have hm2 : ModeOK s → ModeOK q2 := by
      intro h
      have := hmode h
      unfold ModeOK at this ⊢
      rw [e1]
      exact this
    have ha2 : Active s → Active q2 := by
      intro h
      have := hact h
      unfold Active at this ⊢
      rw [e1]
      exact this
    cases b with
    | false =>
      simp only [Bool.false_eq_true, if_false, stateOf_ok]
      exact ⟨hm2, ha2, e2, e3, _, e4, hquiet⟩
    | true =>
      simp only [if_true]
      obtain ⟨i1, i2, i3, i4, out, i5, i6⟩ := ih q2 (constrain c.pot 0 1023)
      refine ⟨fun h => i1 (hm2 h), fun h => i2 (ha2 h), by rw [i3, e2], by rw [i4, e3],
        ((if c.clicks = some 2 then [Effect.blink 2 100 100] else [])
          ++ (potReads c.pot ++ [trackWrite c.pot])) ++ out,
        by rw [i5, e4, List.append_assoc], ?_⟩
      intro e he
      rcases List.mem_append.mp he with h | h
      · exact hquiet e h
      · exact i6 e h

/-- What `set()` keeps, whether it returns or is still waiting; its first call is the
potentiometer read of line 260. -/
theorem set_inv (s : State) (pot : Calls) (calRamp : List Calls) (calib : List CalibStep) :
    (ModeOK s → ModeOK (stateOf (set s pot calRamp calib))) ∧
    (Active s → Active (stateOf (set s pot calRamp calib))) ∧
    (stateOf (set s pot calRamp calib)).memory = s.memory ∧
    (stateOf (set s pot calRamp calib)).settings.NUM_MODE = s.settings.NUM_MODE ∧
    ∃ out, (stateOf (set s pot calRamp calib)).trace =
        s.trace ++ Effect.analogRead pot.first :: out ∧
      ∀ e ∈ out, NoRequest e := by
  obtain ⟨r1, r2, r3, r4⟩ := foldl_setRampStep calRamp (readPot s pot)
  generalize hs1 : calRamp.foldl setRampStep (readPot s pot) = s1 at r1 r2 r3 r4
  obtain ⟨i1, i2, i3, i4, out, i5, i6⟩ := setLoop_inv calib s1 (constrain pot 0 1023)
  have m1 : ModeOK s → ModeOK s1 := by
    intro h
    unfold ModeOK at h ⊢
    rw [r3]
    exact h
  have a1 : Active s → Active s1 := by
    intro h
    unfold Active at h ⊢
    rw [r3]
    exact h
  obtain ⟨more, hmore, hmr⟩ := potReads_head pot
  have t1 : s1.trace =
      s.trace ++ Effect.analogRead pot.first :: (more ++ calRamp.map rampWrite) := by
    rw [r4, readPot_trace, hmore]
    simp
  have hramp : ∀ e ∈ more ++ calRamp.map rampWrite, NoRequest e := by
    intro e he
    rcases List.mem_append.mp he with h | h
    · obtain ⟨r, hr⟩ := hmr e h
      subst hr
      simp [NoRequest]
    · obtain ⟨x, _, hx⟩ := List.mem_map.mp h
      subst hx
      simp [NoRequest, rampWrite]
  have hset : set s pot calRamp calib =
      match setLoop s1 (constrain pot 0 1023) calib with
      | Except.ok s2 => Except.ok (emit s2 (Effect.blink 3 100 100))
      | Except.error s2 => Except.error s2 := by
    unfold set
    simp only [hs1]
  rw [hset]
  cases hres : setLoop s1 (constrain pot 0 1023) calib with
  | error s2 =>
    rw [hres, stateOf_error] at i1 i2 i3 i4 i5
    simp only [stateOf_error]
    refine ⟨fun h => i1 (m1 h), fun h => i2 (a1 h), by rw [i3, r2]; rfl, by rw [i4, r1]; rfl,
      (more ++ calRamp.map rampWrite) ++ out, by rw [i5, t1]; simp, ?_⟩
    intro e he
    rcases List.mem_append.mp he with h | h
    · exact hramp e h
    · exact i6 e h
  | ok s2 =>
    rw [hres, stateOf_ok] at i1 i2 i3 i4 i5
    simp only [stateOf_ok]
    refine ⟨fun h => i1 (m1 h), fun h => i2 (a1 h), i3.trans r2,
      i4.trans (congrArg Data.NUM_MODE r1),
      (more ++ calRamp.map rampWrite) ++ (out ++ [Effect.blink 3 100 100]),
      by simp [emit, i5, t1], ?_⟩
    intro e he
    rcases List.mem_append.mp he with h | h
    · exact hramp e h
    · rcases List.mem_append.mp h with h | h
      · exact i6 e h
      · rw [List.mem_singleton] at h
        subst h
        simp [NoRequest]

/-- Without a 3-click pass before it, a 4-click pass ends the loop `while (restart)`
with both levels as they were. -/
theorem setLoop_exit4 (p : Calls) (rest : List CalibStep) (pre : List CalibStep) :
    ∀ (s : State) (now : Int), (∀ c ∈ pre, c.clicks ≠ some 3) →
      ∃ s1, setLoop s now (pre ++ ⟨some 4, p⟩ :: rest) = Except.ok s1 ∧
        s1.settings.FIRST_LVL = s.settings.FIRST_LVL ∧
        s1.settings.SECOND_LVL = s.settings.SECOND_LVL := by
  induction pre with
  | nil =>
    intro s now _
    refine ⟨emit (readPot s p) (trackWrite p), ?_, rfl, rfl⟩
    simp [setLoop_cons, setClicks]
  | cons c pre ih =>
    intro s now hpre
    have hc : c.clicks ≠ some 3 := hpre c (List.mem_cons_self _ _)
    obtain ⟨q, b, hqb, _, q2, q3, _, _, _, _⟩ := calibStep_frame s now c
    rw [if_neg (fun h => hc h.1)] at q2 q3
    obtain ⟨s1, h1, h2, h3⟩ := ih (emit (readPot q c.pot) (trackWrite c.pot))
      (constrain c.pot 0 1023) (fun x hx => hpre x (List.mem_cons_of_mem _ hx))
    rw [List.cons_append, setLoop_cons, hqb]
    cases b with
    | false =>
      exact ⟨emit (readPot q c.pot) (trackWrite c.pot), by simp, q2, q3⟩
    | true => exact ⟨s1, by simpa using h1, h2.trans q2, h3.trans q3⟩

/-- A 3-click pass of `while (restart)`: the local `now_lvl` goes to the level of the
selected mode and the loop ends. -/
theorem setLoop_three (s : State) (now : Int) (p : Calls) (rest : List CalibStep) :
    ∃ s1, setLoop s now (⟨some 3, p⟩ :: rest) = Except.ok s1 ∧
      s1.settings.FIRST_LVL = (if s.NUM_MODE_ = 0 then now else s.settings.FIRST_LVL) ∧
      s1.settings.SECOND_LVL = (if s.NUM_MODE_ = 1 then now else s.settings.SECOND_LVL) ∧
      s1.settings.NUM_MODE = s.settings.NUM_MODE ∧
      s1.NUM_MODE_ = s.NUM_MODE_ := by
  obtain ⟨g1, g2, g3, g4, _, _, g7⟩ := setClicks_frame s now 3
  norm_num at g1 g2 g3 g7
  refine ⟨emit (readPot (setClicks s now 3).1 p) (trackWrite p), ?_,
    g2, g3, g4, g1⟩
  rw [setLoop_cons]
  simp [g7]

theorem set_three (s : State) (raw p : Calls) (calRamp : List Calls) (rest : List CalibStep) :
    ∃ s1, set s raw calRamp (⟨some 3, p⟩ :: rest) = Except.ok s1 ∧
      s1.settings.FIRST_LVL =
        (if s.NUM_MODE_ = 0 then constrain raw 0 1023 else s.settings.FIRST_LVL) ∧
      s1.settings.SECOND_LVL =
        (if s.NUM_MODE_ = 1 then constrain raw 0 1023 else s.settings.SECOND_LVL) ∧
      s1.settings.NUM_MODE = s.settings.NUM_MODE ∧
      s1.NUM_MODE_ = s.NUM_MODE_ := by
  obtain ⟨r1, _, r3, _⟩ := foldl_setRampStep calRamp (readPot s raw)
  obtain ⟨s1, h1, h2, h3, h4, h5⟩ :=
    setLoop_three (calRamp.foldl setRampStep (readPot s raw))
      (constrain raw 0 1023) p rest
  rw [r1] at h2 h3 h4
  rw [r3] at h2 h3 h5
  refine ⟨emit s1 (Effect.blink 3 100 100), ?_, h2, h3, h4, h5⟩
  unfold set
  simp only [h1]

theorem loop_three_active (s : State) (i : Input) (hc : i.clicks = some 3) (ha : Active s) :
    loop s i =
      match set (emit (memoryTick s i.flush) (Effect.blink 3 100 100)) i.pot i.calRamp i.calib with
      | Except.ok s1 => Except.ok (transit s1 i.ramp)
      | Except.error s1 => Except.error s1 := by
  have t2 := (memoryTick_frame s i.flush).2.1
  have ha1 : (emit (memoryTick s i.flush) (Effect.blink 3 100 100)).NUM_MODE_ = 0 ∨
      (emit (memoryTick s i.flush) (Effect.blink 3 100 100)).NUM_MODE_ = 1 := by
    show (memoryTick s i.flush).NUM_MODE_ = 0 ∨ (memoryTick s i.flush).NUM_MODE_ = 1
    rw [t2]
    exact ha
  rw [loop_clicks s i 3 hc]
  have hsw : loopSwitch (memoryTick s i.flush) 3 i =
      set (emit (memoryTick s i.flush) (Effect.blink 3 100 100)) i.pot i.calRamp i.calib := by
    unfold loopSwitch
    norm_num
    intro h0 h1
    exact absurd ha1 (by rw [not_or]; exact ⟨h0, h1⟩)
  rw [hsw]

/-! ## C8: three clicks inside calibration -/

/-- C8: inside the calibration loop a 3-click pass ends the loop and stores the current
reading, the value `constrain raw 0 1023` of the last potentiometer read, in the level of
the selected mode: `FIRST_LVL` in mode 0 (ModeA), `SECOND_LVL` in mode 1 (ModeB); the
other level and the selected mode are unchanged.  That value is the clamp of the reading
`x` into `[0, 1023]` when the reads of the macro agree on `x`, and it lies in `[0, 1023]`
when the last read does (every value of the 10-bit converter).  The same holds for
`set()` as a whole when the first pass has the 3 clicks.  Scenario: default settings,
mode 1, calibration entered with 3 clicks, potentiometer at 300, then 3 clicks:
`SECOND_LVL` is 300, `FIRST_LVL` is 512 and the mode is 1. -/
theorem C8_calibration_three_clicks (s : State) (raw p : Calls) (x : Int)
    (calRamp ramp : List Calls) (rest : List CalibStep) :
    (constrain (Calls.same x) 0 1023 = clamp x 0 1023 ∧
      0 ≤ constrain (Calls.same x) 0 1023 ∧ constrain (Calls.same x) 0 1023 ≤ 1023) ∧
    (0 ≤ raw.third ∧ raw.third ≤ 1023 →
      0 ≤ constrain raw 0 1023 ∧ constrain raw 0 1023 ≤ 1023) ∧
    (∃ s1, setLoop s (constrain raw 0 1023) (⟨some 3, p⟩ :: rest) = Except.ok s1 ∧
      s1.settings.FIRST_LVL =
        (if s.NUM_MODE_ = 0 then constrain raw 0 1023 else s.settings.FIRST_LVL) ∧
      s1.settings.SECOND_LVL =
        (if s.NUM_MODE_ = 1 then constrain raw 0 1023 else s.settings.SECOND_LVL) ∧
      s1.NUM_MODE_ = s.NUM_MODE_) ∧
    (∃ s1, set s raw calRamp (⟨some 3, p⟩ :: rest) = Except.ok s1 ∧
      s1.settings.FIRST_LVL =
        (if s.NUM_MODE_ = 0 then constrain raw 0 1023 else s.settings.FIRST_LVL) ∧
      s1.settings.SECOND_LVL =
        (if s.NUM_MODE_ = 1 then constrain raw 0 1023 else s.settings.SECOND_LVL) ∧
      s1.NUM_MODE_ = s.NUM_MODE_) ∧
    (∃ s2, loop { initial with NUM_MODE_ := 1 }
        { clicks := some 3, pot := .same 300, calRamp := calRamp, calib := ⟨some 3, p⟩ :: rest,
          ramp := ramp } = Except.ok s2 ∧
      s2.settings.SECOND_LVL = 300 ∧ s2.settings.FIRST_LVL = 512 ∧ s2.NUM_MODE_ = 1) := by
  refine ⟨⟨rfl, clamp_range x⟩, fun h => constrain_range raw h.1 h.2, ?_, ?_, ?_⟩
  · obtain ⟨s1, h1, h2, h3, _, h5⟩ := setLoop_three s (constrain raw 0 1023) p rest
    exact ⟨s1, h1, h2, h3, h5⟩
  · obtain ⟨s1, h1, h2, h3, _, h5⟩ := set_three s raw p calRamp rest
    exact ⟨s1, h1, h2, h3, h5⟩
  · obtain ⟨s1, h1, h2, h3, _, h5⟩ :=
      set_three (emit (memoryTick { initial with NUM_MODE_ := 1 } false) (Effect.blink 3 100 100))
        (.same 300) p calRamp rest
    obtain ⟨f1, f2, f3, _, _⟩ := transit_frame s1 ramp
    refine ⟨transit s1 ramp, ?_, ?_, ?_, ?_⟩
    · rw [loop_three_active _ _ rfl (Or.inr rfl)]
      simp only [h1]
    · rw [f3, h3]
      decide
    · rw [f2, h2]
      decide
    · rw [f1, h5]
      decide

/-! ## C9: four clicks inside calibration -/

/-- C9: a calibration session that ends with a 4-click pass commits nothing: whatever
the potentiometer readings, and whatever click events other than 3 come before the
4 clicks, `set()` returns with `FIRST_LVL` and `SECOND_LVL` as they were on entry. -/
theorem C9_calibration_four_clicks (s : State) (pot p : Calls) (calRamp : List Calls)
    (pre rest : List CalibStep) (hpre : ∀ c ∈ pre, c.clicks ≠ some 3) :
    ∃ s1, set s pot calRamp (pre ++ ⟨some 4, p⟩ :: rest) = Except.ok s1 ∧
      s1.settings.FIRST_LVL = s.settings.FIRST_LVL ∧
      s1.settings.SECOND_LVL = s.settings.SECOND_LVL := by
  obtain ⟨r1, _, _, _⟩ := foldl_setRampStep calRamp (readPot s pot)
  obtain ⟨s1, h1, h2, h3⟩ := setLoop_exit4 p rest pre
    (calRamp.foldl setRampStep (readPot s pot)) (constrain pot 0 1023) hpre
  rw [r1] at h2 h3
  refine ⟨emit s1 (Effect.blink 3 100 100), ?_, h2, h3⟩
  unfold set
  simp only [h1]

theorem C9_calibration_four_clicks_witness :
    ∃ s1, set { initial with NUM_MODE_ := 0 } (.same 300) [.same 150, .same 300]
        ([⟨none, .same 700⟩, ⟨some 2, .same 800⟩, ⟨some 7, .same 900⟩] ++ ⟨some 4, .same 900⟩ :: []) = Except.ok s1 ∧
      s1.settings.FIRST_LVL = 512 ∧ s1.settings.SECOND_LVL = 1023 ∧ s1.NUM_MODE_ = 1 := by
  obtain ⟨s1, h1, h2, h3⟩ :=
    C9_calibration_four_clicks { initial with NUM_MODE_ := 0 } (.same 300) (.same 900)
      [.same 150, .same 300]
      [⟨none, .same 700⟩, ⟨some 2, .same 800⟩, ⟨some 7, .same 900⟩] [] (by decide)
  refine ⟨s1, h1, h2, h3, ?_⟩
  have e : stateOf (set { initial with NUM_MODE_ := 0 } (.same 300) [.same 150, .same 300]
      ([⟨none, .same 700⟩, ⟨some 2, .same 800⟩, ⟨some 7, .same 900⟩] ++ ⟨some 4, .same 900⟩ :: [])) = s1 := by
    rw [h1]
    rfl
  rw [← e]
  decide

/-! ## Shared lemmas: the calls made by the switch of `loop()` -/

theorem transit_trace (s : State) (ramp : List Calls) :
    (transit s ramp).trace = s.trace ++ ramp.map rampWrite :=
  (transit_frame s ramp).2.2.2.2

theorem gated_append_ramp (val : Int) (a : Prop) (out : List Effect) (ramp : List Calls)
    (h : Gated val a out) : Gated val a (out ++ ramp.map rampWrite) := by
  obtain ⟨h1, h2, h3⟩ := h
  unfold Gated
  simp only [List.mem_append, List.mem_map, rampWrite]
  refine ⟨?_, ?_, ?_⟩
  · rw [← h1]
    constructor
    · rintro ⟨raw, h | ⟨x, _, hx⟩⟩
      · exact ⟨raw, h⟩
      · exact absurd hx (by simp)
    · rintro ⟨raw, h⟩
      exact ⟨raw, Or.inl h⟩
  · rw [← h2]
    constructor
    · rintro (h | ⟨x, _, hx⟩)
      · exact h
      · exact absurd hx (by simp)
    · exact Or.inl
  · rw [← h3]
    constructor
    · rintro (h | ⟨x, _, hx⟩)
      · exact h
      · exact absurd hx (by simp)
    · exact Or.inl

theorem loopSwitch_gated (t : State) (val : Int) (i : Input) :
    ∃ out, (stateOf (loopSwitch t val i)).trace = t.trace ++ out ∧
      Gated val (Active t) out := by
  by_cases h1 : val = 1
  · subst h1
    by_cases hm : t.NUM_MODE_ = 2
    · exact ⟨[Effect.blink 1 100 100], by simp [loopSwitch, emit, hm, stateOf],
        by simp [Gated]⟩
    · cases hw : i.wake with
      | false =>
        exact ⟨Effect.blink 1 100 100 :: i.offRamp.map rampWrite ++ [Effect.sleep],
          by simp [loopSwitch, emit, hm, hw, stateOf, transit_trace],
          by simp [Gated, rampWrite]⟩
      | true =>
        exact ⟨Effect.blink 1 100 100 :: i.offRamp.map rampWrite ++
            [Effect.sleep, Effect.blink 1 100 100],
          by simp [loopSwitch, emit, hm, hw, stateOf, transit_trace],
          by simp [Gated, rampWrite]⟩
  · by_cases h2 : val = 2
    · subst h2
      exact ⟨[Effect.blink 2 100 100],
        by simp [loopSwitch, stateOf, (toggleMode_frame _).2.2.2.2, emit],
        by simp [Gated]⟩
    · by_cases h3 : val = 3
      · subst h3
        by_cases ha : Active t
        · obtain ⟨_, _, _, _, out, e5, e6⟩ :=
            set_inv (emit t (Effect.blink 3 100 100)) i.pot i.calRamp i.calib
          have hsw : loopSwitch t 3 i =
              set (emit t (Effect.blink 3 100 100)) i.pot i.calRamp i.calib := by
            unfold loopSwitch
            norm_num
            intro h0 h1
            exact absurd ha (by unfold Active; rw [not_or]; exact ⟨h0, h1⟩)
          refine ⟨Effect.blink 3 100 100 :: Effect.analogRead i.pot.first :: out, ?_, ?_⟩
          · rw [hsw, e5]
            simp [emit]
          · refine ⟨?_, ?_, ?_⟩
            · exact ⟨fun _ => ⟨rfl, ha⟩, fun _ => ⟨i.pot.first, by simp⟩⟩
            · constructor
              · intro h
                simp only [List.mem_cons, false_or] at h
                exact absurd rfl (e6 _ (by simpa using h)).1
              · rintro ⟨h, _⟩
                norm_num at h
            · constructor
              · intro h
                simp only [List.mem_cons, false_or] at h
                exact absurd rfl (e6 _ (by simpa using h)).2
              · rintro ⟨h, _⟩
                norm_num at h
        · have ha1 : ¬ (t.NUM_MODE_ = 0 ∨ t.NUM_MODE_ = 1) := ha
          exact ⟨[Effect.blink 3 100 100], by simp [loopSwitch, emit, ha1, stateOf],
            by simp [Gated, ha]⟩
      · by_cases h5 : val = 5
        · subst h5
          by_cases ha : Active t
          · have ha1 : t.NUM_MODE_ = 0 ∨ t.NUM_MODE_ = 1 := ha
            exact ⟨[Effect.blink 4 100 100, Effect.update],
              by simp [loopSwitch, emit, ha1, stateOf, memoryUpdate],
              by simp [Gated, ha]⟩
          · have ha1 : ¬ (t.NUM_MODE_ = 0 ∨ t.NUM_MODE_ = 1) := ha
            exact ⟨[], by simp [loopSwitch, ha1, stateOf], by simp [Gated, ha]⟩
        · by_cases h10 : val = 10
          · subst h10
            by_cases ha : Active t
            · have ha1 : t.NUM_MODE_ = 0 ∨ t.NUM_MODE_ = 1 := ha
              exact ⟨[Effect.blink 5 100 100, Effect.reset, Effect.begin],
                by simp [loopSwitch, emit, ha1, stateOf, memoryReset, memoryBegin],
                by simp [Gated, ha]⟩
            · have ha1 : ¬ (t.NUM_MODE_ = 0 ∨ t.NUM_MODE_ = 1) := ha
              exact ⟨[], by simp [loopSwitch, ha1, stateOf], by simp [Gated, ha]⟩
          · exact ⟨[], by simp [loopSwitch, h1, h2, h3, h5, h10, stateOf],
              by simp [Gated, h3, h5, h10]⟩

theorem boolToInt_modeOK (b : Bool) :
    boolToInt b = 0 ∨ boolToInt b = 1 ∨ boolToInt b = 2 := by
  cases b <;> simp [boolToInt]

theorem loopSwitch_modeOK (t : State) (val : Int) (i : Input) (h : ModeOK t) :
    ModeOK (stateOf (loopSwitch t val i)) := by
  by_cases h1 : val = 1
  · subst h1
    by_cases hm : t.NUM_MODE_ = 2
    · simpa [loopSwitch, emit, hm, stateOf, ModeOK] using boolToInt_modeOK _
    · cases hw : i.wake with
      | false =>
        simp [loopSwitch, emit, hm, hw, stateOf, ModeOK, (transit_frame _ _).1]
      | true =>
        simpa [loopSwitch, emit, hm, hw, stateOf, ModeOK] using boolToInt_modeOK _
  · by_cases h2 : val = 2
    · subst h2
      have g := (toggleMode_frame (emit t (Effect.blink 2 100 100))).1
      have e : (emit t (Effect.blink 2 100 100)).NUM_MODE_ = t.NUM_MODE_ := rfl
      rw [e] at g
      have hs : loopSwitch t 2 i = Except.ok (toggleMode (emit t (Effect.blink 2 100 100))) := by
        simp [loopSwitch]
      rw [hs, stateOf_ok]
      unfold ModeOK
      rw [g]
      exact toggled_modeOK _ h
    · by_cases h3 : val = 3
      · subst h3
        by_cases ha : Active t
        · have hsw : loopSwitch t 3 i =
              set (emit t (Effect.blink 3 100 100)) i.pot i.calRamp i.calib := by
            unfold loopSwitch
            norm_num
            intro h0 h1
            exact absurd ha (by unfold Active; rw [not_or]; exact ⟨h0, h1⟩)
          rw [hsw]
          exact (set_inv (emit t (Effect.blink 3 100 100)) i.pot i.calRamp i.calib).1 h
        · have ha1 : ¬ (t.NUM_MODE_ = 0 ∨ t.NUM_MODE_ = 1) := ha
          simpa [loopSwitch, emit, ha1, stateOf, ModeOK] using h
      · by_cases h5 : val = 5
        · subst h5
          by_cases ha : t.NUM_MODE_ = 0 ∨ t.NUM_MODE_ = 1
          · simpa [loopSwitch, emit, ha, stateOf, ModeOK, memoryUpdate] using h
          · simpa [loopSwitch, ha, stateOf] using h
        · by_cases h10 : val = 10
          · subst h10
            by_cases ha : t.NUM_MODE_ = 0 ∨ t.NUM_MODE_ = 1
            · have hs : (stateOf (loopSwitch t 10 i)).NUM_MODE_ = t.NUM_MODE_ := by
                simp only [loopSwitch, memoryBegin, memoryReset, emit]
                norm_num
                simp [ha, stateOf]
              unfold ModeOK
              rw [hs]
              exact h
            · simpa [loopSwitch, ha, stateOf] using h
          · simpa [loopSwitch, h1, h2, h3, h5, h10, stateOf] using h

theorem memoryTick_modeOK (s : State) (f : Bool) (h : ModeOK s) : ModeOK (memoryTick s f) := by
  unfold ModeOK at h ⊢
  rw [(memoryTick_frame s f).2.1]
  exact h

theorem loop_modeOK (s : State) (i : Input) (h : ModeOK s) : ModeOK (stateOf (loop s i)) := by
  have ht := memoryTick_modeOK s i.flush h
  cases hc : i.clicks with
  | none =>
    have e : loop s i = Except.ok (memoryTick s i.flush) := by
      unfold loop
      rw [hc]
    rw [e]
    exact ht
  | some val =>
    have hsw := loopSwitch_modeOK (memoryTick s i.flush) val i ht
    rw [loop_clicks s i val hc]
    cases hres : loopSwitch (memoryTick s i.flush) val i with
    | error s1 =>
      rw [hres] at hsw
      exact hsw
    | ok s1 =>
      rw [hres, stateOf_ok] at hsw
      simp only [stateOf_ok]
      unfold ModeOK at hsw ⊢
      rw [(transit_frame s1 i.ramp).1]
      exact hsw

theorem run_modeOK (inputs : List Input) : ∀ (s : State), ModeOK s →
    ModeOK (stateOf (run s inputs)) := by
  induction inputs with
  | nil =>
    intro s h
    exact h
  | cons i rest ih =>
    intro s h
    have hl := loop_modeOK s i h
    cases hres : loop s i with
    | error s1 =>
      rw [hres] at hl
      simpa [run, hres] using hl
    | ok s1 =>
      rw [hres, stateOf_ok] at hl
      have e : run s (i :: rest) = run s1 rest := by
        simp [run, hres]
      rw [e]
      exact ih s1 hl

/-! ## C4: the mode is never Max -/

/-- C4: from a state whose mode is Off (2), in particular from the state `setup()`
leaves for any content of the persistent store, after any finite sequence of passes of
`loop()` (any click counts, potentiometer readings, interpolator values, wake events,
calibration sessions; whether the last pass returned or is still blocked in a calibration
session or in sleep) the mode is one of 0, 1, 2, 3 and it is not 3 (Max). -/
theorem C4_mode_never_max (s : State) (inputs : List Input) (h : s.NUM_MODE_ = 2) :
    ((stateOf (run s inputs)).NUM_MODE_ = 0 ∨ (stateOf (run s inputs)).NUM_MODE_ = 1 ∨
      (stateOf (run s inputs)).NUM_MODE_ = 2 ∨ (stateOf (run s inputs)).NUM_MODE_ = 3) ∧
    (stateOf (run s inputs)).NUM_MODE_ ≠ 3 ∧
    ∀ m : Store, (setup m).NUM_MODE_ = 2 := by
  have hr : ModeOK (stateOf (run s inputs)) := run_modeOK inputs s (Or.inr (Or.inr h))
  unfold ModeOK at hr
  refine ⟨?_, ?_, ?_⟩
  · rcases hr with h0 | h0 | h0
    · exact Or.inl h0
    · exact Or.inr (Or.inl h0)
    · exact Or.inr (Or.inr (Or.inl h0))
  · rcases hr with h0 | h0 | h0 <;> rw [h0] <;> decide
  · intro m
    unfold setup memoryBegin
    split_ifs <;> rfl

theorem C4_mode_never_max_witness :
    (stateOf (run (setup {}) sampleSession)).NUM_MODE_ ≠ 3 ∧
    (stateOf (run (setup {}) sampleSession)).NUM_MODE_ = 0 :=
  ⟨(C4_mode_never_max (setup {}) sampleSession (by decide)).2.1, by decide⟩

theorem C8_calibration_three_clicks_witness :
    (∃ s2, loop { initial with NUM_MODE_ := 1 }
        { clicks := some 3, pot := .same 300, calRamp := [.same 300], calib := ⟨some 3, .same 300⟩ :: [],
          ramp := [.same 300] } = Except.ok s2 ∧
      s2.settings.SECOND_LVL = 300 ∧ s2.settings.FIRST_LVL = 512 ∧ s2.NUM_MODE_ = 1) ∧
    (stateOf (run initial
        [{ clicks := some 1, ramp := [.same 512] }, { clicks := some 2, ramp := [.same 1023] },
         { clicks := some 3, pot := .same 300, calRamp := [.same 300], calib := [⟨some 3, .same 300⟩],
           ramp := [.same 300] }])).settings = { FIRST_LVL := 512, SECOND_LVL := 300, NUM_MODE := true } :=
  ⟨(C8_calibration_three_clicks initial (.same 300) (.same 300) 300 [.same 300] [.same 300]
      []).2.2.2.2, by decide⟩

/-! ## C10: the 3-, 5- and 10-click actions are gated on an active mode -/

/-- C10: in a pass of `loop()` with click count `val`, the calls made show a
potentiometer read (calibration entered) exactly when `val = 3` and the mode is 0 or 1, a
`memory.update()` (commit request) exactly when `val = 5` and the mode is 0 or 1, and a
`memory.reset()` (factory reset) exactly when `val = 10` and the mode is 0 or 1.  When
the mode is neither 0 nor 1 (Off, Max), 3, 5 or 10 clicks return with the mode and the
settings (both levels and the last active mode) unchanged. -/
theorem C10_gated_actions (s : State) (i : Input) (val : Int) (hc : i.clicks = some val) :
    (∃ out, (stateOf (loop s i)).trace = s.trace ++ out ∧
      ((∃ raw, Effect.analogRead raw ∈ out) ↔ val = 3 ∧ (s.NUM_MODE_ = 0 ∨ s.NUM_MODE_ = 1)) ∧
      (Effect.update ∈ out ↔ val = 5 ∧ (s.NUM_MODE_ = 0 ∨ s.NUM_MODE_ = 1)) ∧
      (Effect.reset ∈ out ↔ val = 10 ∧ (s.NUM_MODE_ = 0 ∨ s.NUM_MODE_ = 1))) ∧
    (¬ (s.NUM_MODE_ = 0 ∨ s.NUM_MODE_ = 1) → val = 3 ∨ val = 5 ∨ val = 10 →
      ∃ s1, loop s i = Except.ok s1 ∧ s1.NUM_MODE_ = s.NUM_MODE_ ∧
        s1.settings = s.settings) := by
  obtain ⟨t1, t2, _, t4⟩ := memoryTick_frame s i.flush
  generalize ht : memoryTick s i.flush = t at t1 t2 t4
  have hloop : loop s i =
      match loopSwitch t val i with
      | Except.ok s1 => Except.ok (transit s1 i.ramp)
      | Except.error s1 => Except.error s1 := by
    rw [loop_clicks s i val hc, ht]
  constructor
  · obtain ⟨out, h1, h2⟩ := loopSwitch_gated t val i
    have hact : Active t = (s.NUM_MODE_ = 0 ∨ s.NUM_MODE_ = 1) := by
      unfold Active
      rw [t2]
    rw [hact] at h2
    rw [t4] at h1
    rw [hloop]
    cases hres : loopSwitch t val i with
    | error s1 =>
      rw [hres, stateOf_error] at h1
      exact ⟨out, h1, h2⟩
    | ok s1 =>
      rw [hres, stateOf_ok] at h1
      refine ⟨out ++ i.ramp.map rampWrite, ?_, gated_append_ramp _ _ _ _ h2⟩
      simp only [stateOf_ok]
      rw [transit_trace, h1, List.append_assoc]
  · intro hna hval
    have hna1 : ¬ (t.NUM_MODE_ = 0 ∨ t.NUM_MODE_ = 1) := by rw [t2]; exact hna
    have hsw : ∃ q, loopSwitch t val i = Except.ok q ∧ q.NUM_MODE_ = t.NUM_MODE_ ∧
        q.settings = t.settings := by
      rcases hval with h | h | h
      · subst h
        exact ⟨emit t (Effect.blink 3 100 100), by simp [loopSwitch, emit, hna1], rfl, rfl⟩
      · subst h
        exact ⟨t, by simp [loopSwitch, hna1], rfl, rfl⟩
      · subst h
        exact ⟨t, by simp [loopSwitch, hna1], rfl, rfl⟩
    obtain ⟨q, hq, q1, q2⟩ := hsw
    rw [hloop, hq]
    obtain ⟨f1, f2, f3, _, _⟩ := transit_frame q i.ramp
    have f4 := transit_NUM_MODE q i.ramp
    have hq0 : ¬ q.NUM_MODE_ = 0 := by
      rw [q1]
      exact fun h => hna1 (Or.inl h)
    have hq1 : ¬ q.NUM_MODE_ = 1 := by
      rw [q1]
      exact fun h => hna1 (Or.inr h)
    rw [if_neg hq0, if_neg hq1] at f4
    refine ⟨transit q i.ramp, rfl, by rw [f1, q1, t2], ?_⟩
    rw [← t1, ← q2]
    exact data_ext _ _ f2 f3 f4

theorem C10_gated_actions_witness :
    (∃ s1, loop initial { clicks := some 10, ramp := [.same 0] } = Except.ok s1 ∧
      s1.NUM_MODE_ = 2 ∧ s1.settings = initial.settings) ∧
    (stateOf (loop initial { clicks := some 10, ramp := [.same 0] })).trace =
      [Effect.analogWrite 1] ∧
    (stateOf (loop { initial with NUM_MODE_ := 0 } { clicks := some 10, ramp := [.same 512] })).trace =
      [Effect.blink 5 100 100, Effect.reset, Effect.begin, Effect.analogWrite 33] ∧
    (stateOf (loop { initial with NUM_MODE_ := 1 } { clicks := some 5, ramp := [.same 1023] })).trace =
      [Effect.blink 4 100 100, Effect.update, Effect.analogWrite 255] :=
  ⟨(C10_gated_actions initial { clicks := some 10, ramp := [.same 0] } 10 rfl).2 (by decide)
      (Or.inr (Or.inr rfl)), by decide, by decide, by decide⟩

/-! ## Shared lemmas: the corrector on the two rescales -/

theorem getBrightCRT_mono (a b : Int) (h0 : 0 ≤ a) (hab : a ≤ b) (h1 : b ≤ 1023) :
    getBrightCRT a ≤ getBrightCRT b := by
  rw [getBrightCRT_eq a h0 (le_trans hab h1), getBrightCRT_eq b (le_trans h0 hab) h1]
  apply Int.ediv_le_ediv (by norm_num)
  have := cube_mono a b h0 hab
  omega

theorem map_225_le_255 (p : Int) (h0 : 0 ≤ p) (h1 : p ≤ 1023) :
    0 ≤ map p 0 1023 0 225 ∧ map p 0 1023 0 225 ≤ map p 0 1023 0 255 ∧
      map p 0 1023 0 255 ≤ 255 := by
  rw [map_eq p 225 h0 h1 (by norm_num) (by norm_num),
    map_eq p 255 h0 h1 (by norm_num) (by norm_num)]
  omega

/-! ## C14: target resolution in `setNewValue()` -/

/-- C14: `setNewValue()` resolves the target by mode: mode 0 (ModeA) gives `FIRST_LVL`,
mode 1 (ModeB) gives `SECOND_LVL`, mode 2 (Off) gives `OFF = 0`, mode 3 (Max) gives
`MAX = 1023`; it never changes `FIRST_LVL` or `SECOND_LVL`. -/
theorem C14_setNewValue_target (s : State) :
    (setNewValue s).newValue =
      (if s.NUM_MODE_ = 0 then s.settings.FIRST_LVL
       else if s.NUM_MODE_ = 1 then s.settings.SECOND_LVL
       else if s.NUM_MODE_ = 2 then OFF
       else if s.NUM_MODE_ = 3 then MAX
       else s.newValue) ∧
    OFF = 0 ∧ MAX = 1023 ∧
    (setNewValue s).settings.FIRST_LVL = s.settings.FIRST_LVL ∧
    (setNewValue s).settings.SECOND_LVL = s.settings.SECOND_LVL := by
  obtain ⟨_, g2, g3, _, _⟩ := setNewValue_frame s
  refine ⟨?_, rfl, rfl, g2, g3⟩
  rw [setNewValue_newValue]
  rfl

/-! ## C17: the rescale of the live tracking -/

/-- C17: for a potentiometer level `p` in `[0, 1023]` the live tracking of `set()`
rescales to `p * 225 / 1023` and writes `getBrightCRT (map p 0 1023 0 225)`, which is at
most the value `getBrightCRT (map p 0 1023 0 255)` a transition writes for the same
level; at `p = 1023` the tracking writes 175 and the transition writes 255. -/
theorem C17_tracking_rescale (p : Int) (h0 : 0 ≤ p) (h1 : p ≤ 1023) :
    map p 0 1023 0 225 = p * 225 / 1023 ∧
    map p 0 1023 0 255 = p * 255 / 1023 ∧
    getBrightCRT (map p 0 1023 0 225) ≤ getBrightCRT (map p 0 1023 0 255) ∧
    getBrightCRT (map 1023 0 1023 0 225) = 175 ∧
    getBrightCRT (map 1023 0 1023 0 255) = 255 ∧
    trackWrite (Calls.same p) = Effect.analogWrite (getBrightCRT (map p 0 1023 0 225)) ∧
    rampWrite (Calls.same p) = Effect.analogWrite (getBrightCRT (map p 0 1023 0 255)) := by
  obtain ⟨a, b, c⟩ := map_225_le_255 p h0 h1
  have hc : constrain (Calls.same p) 0 1023 = p := by
    rw [constrain_same]
    unfold clamp
    split_ifs <;> omega
  refine ⟨map_eq p 225 h0 h1 (by norm_num) (by norm_num),
    map_eq p 255 h0 h1 (by norm_num) (by norm_num),
    getBrightCRT_mono _ _ a b (by omega), by decide, by decide, ?_, ?_⟩
  · unfold trackWrite
    rw [hc]
  · unfold rampWrite
    rw [hc]

theorem C17_tracking_rescale_witness :
    getBrightCRT (map 512 0 1023 0 225) ≤ getBrightCRT (map 512 0 1023 0 255) ∧
    getBrightCRT (map 512 0 1023 0 225) = 23 ∧ getBrightCRT (map 512 0 1023 0 255) = 33 :=
  ⟨(C17_tracking_rescale 512 (by decide) (by decide)).2.2.1, by decide, by decide⟩

/-! ## C19: no overflow in the corrector -/

/-- C19: for `val` in `[0, 1023]` the sum `val * val * val + 130305` is below `2 ^ 31`,
no conversion to `long` in `getBrightCRT` wraps, and the result is the exact quotient
`(val ^ 3 + 130305) / 65536`, which is not negative. -/
theorem C19_no_overflow (val : Int) (h0 : 0 ≤ val) (h1 : val ≤ 1023) :
    val * val * val + 130305 < 2 ^ 31 ∧
    toLong (val * val) = val * val ∧
    toLong (val * val * val) = val * val * val ∧
    toLong (val * val * val + 130305) = val * val * val + 130305 ∧
    getBrightCRT val = (val ^ 3 + 130305) / 65536 ∧
    0 ≤ getBrightCRT val := by
  obtain ⟨⟨a, b⟩, ⟨c, d⟩⟩ := cube_bounds val h0 h1
  have e : getBrightCRT val = (val * val * val + 130305) / 65536 := getBrightCRT_eq val h0 h1
  have hp : val ^ 3 = val * val * val := by ring
  refine ⟨by norm_num; omega, toLong_eq _ (by omega) (by omega),
    toLong_eq _ (by omega) (by omega), toLong_eq _ (by omega) (by omega), by rw [e, hp], ?_⟩
  rw [e]
  omega

theorem C19_no_overflow_witness :
    (1023 : Int) * 1023 * 1023 + 130305 < 2 ^ 31 ∧
    getBrightCRT 1023 = (1023 ^ 3 + 130305) / 65536 ∧ getBrightCRT 1023 = 16338 :=
  ⟨(C19_no_overflow 1023 (by decide) (by decide)).1,
    (C19_no_overflow 1023 (by decide) (by decide)).2.2.2.2.1, by decide⟩

/-! ## C11: factory reset in ModeA -/

/-- C11: from a state in mode 0 (ModeA), with any levels, a pass of `loop()` with ten
clicks erases the initialisation marker (`memory.reset()`), then reinitialises
persistence (`memory.begin`), and returns with the settings `FIRST_LVL = 512`,
`SECOND_LVL = 1023`, `NUM_MODE = 0`; the store holds the marker and the same defaults.
The persistence service is the one modelled from the spec. -/
theorem C11_factory_reset (s : State) (i : Input) (hm : s.NUM_MODE_ = 0)
    (hc : i.clicks = some 10) :
    ∃ q s1, q = memoryReset (emit (memoryTick s i.flush) (Effect.blink 5 100 100)) ∧
      q.memory.marker = false ∧
      (memoryBegin q).settings = { FIRST_LVL := 512, SECOND_LVL := 1023, NUM_MODE := false } ∧
      loop s i = Except.ok s1 ∧
      s1 = transit (memoryBegin q) i.ramp ∧
      s1.settings = { FIRST_LVL := 512, SECOND_LVL := 1023, NUM_MODE := false } ∧
      s1.memory.marker = true ∧
      s1.memory.blob = { FIRST_LVL := 512, SECOND_LVL := 1023, NUM_MODE := false } ∧
      s1.NUM_MODE_ = 0 ∧
      s1.trace = s.trace ++ Effect.blink 5 100 100 :: Effect.reset :: Effect.begin ::
        i.ramp.map rampWrite := by
  obtain ⟨_, t2, _, t4⟩ := memoryTick_frame s i.flush
  generalize ht : memoryTick s i.flush = t at t2 t4
  have hact : t.NUM_MODE_ = 0 ∨ t.NUM_MODE_ = 1 := Or.inl (t2.trans hm)
  have hsw : loopSwitch t 10 i =
      Except.ok (memoryBegin (memoryReset (emit t (Effect.blink 5 100 100)))) := by
    simp [loopSwitch, hact]
  have hq : (memoryReset (emit t (Effect.blink 5 100 100))).memory.marker = false := rfl
  generalize hqd : memoryReset (emit t (Effect.blink 5 100 100)) = q at hsw hq
  have q1 : q.NUM_MODE_ = 0 := by rw [← hqd]; exact t2.trans hm
  have q2 : q.trace = s.trace ++ [Effect.blink 5 100 100, Effect.reset] := by
    rw [← hqd]
    simp [memoryReset, emit, t4]
  have hb : memoryBegin q =
      emit { q with settings := {}, memory := { q.memory with marker := true, blob := {} } }
        Effect.begin := by
    unfold memoryBegin
    rw [hq]
    rfl
  have b1 : (memoryBegin q).settings =
      { FIRST_LVL := 512, SECOND_LVL := 1023, NUM_MODE := false } := by rw [hb]; rfl
  have b2 : (memoryBegin q).NUM_MODE_ = 0 := by rw [hb]; exact q1
  have b3 : (memoryBegin q).memory.marker = true := by rw [hb]; rfl
  have b4 : (memoryBegin q).memory.blob =
      { FIRST_LVL := 512, SECOND_LVL := 1023, NUM_MODE := false } := by rw [hb]; rfl
  have b5 : (memoryBegin q).trace =
      s.trace ++ [Effect.blink 5 100 100, Effect.reset, Effect.begin] := by
    rw [hb]
    simp [emit, q2]
  obtain ⟨f1, f2, f3, f4, f5⟩ := transit_frame (memoryBegin q) i.ramp
  have f6 := transit_NUM_MODE (memoryBegin q) i.ramp
  rw [b2] at f6
  simp only [if_true] at f6
  refine ⟨q, transit (memoryBegin q) i.ramp, rfl, hq, b1, ?_, rfl, ?_, by rw [f4, b3],
    by rw [f4, b4], by rw [f1, b2], ?_⟩
  · rw [loop_clicks s i 10 hc, ht, hsw]
  · apply data_ext
    · rw [f2, b1]
    · rw [f3, b1]
    · rw [f6]
  · rw [f5, b5]
    simp

theorem C11_factory_reset_witness :
    ∃ s1, loop editedModeA
        { clicks := some 10, ramp := [.same 512] } = Except.ok s1 ∧
      s1.settings = { FIRST_LVL := 512, SECOND_LVL := 1023, NUM_MODE := false } ∧
      s1.memory.marker = true ∧ s1.NUM_MODE_ = 0 := by
  obtain ⟨_, s1, _, _, _, h, _, h6, h7, _, h9, _⟩ :=
    C11_factory_reset editedModeA
      { clicks := some 10, ramp := [.same 512] } rfl rfl
  exact ⟨s1, h, h6, h7, h9⟩

/-! ## C15: `settings.NUM_MODE` tracks the active mode -/

/-- C15: when a pass of `loop()` with a click event returns, in mode 0 (ModeA) the field
`settings.NUM_MODE` is 0 and in mode 1 (ModeB) it is 1; and a transition run in mode 2
(Off) or 3 (Max) leaves `settings.NUM_MODE` unchanged. -/
theorem C15_last_active_tracks (s s1 : State) (i : Input) (val : Int)
    (hc : i.clicks = some val) (hret : loop s i = Except.ok s1) :
    (s1.NUM_MODE_ = 0 → s1.settings.NUM_MODE = false) ∧
    (s1.NUM_MODE_ = 1 → s1.settings.NUM_MODE = true) ∧
    (s1.NUM_MODE_ = 0 ∨ s1.NUM_MODE_ = 1 → boolToInt s1.settings.NUM_MODE = s1.NUM_MODE_) ∧
    ∀ (q : State) (ramp : List Calls), q.NUM_MODE_ = 2 ∨ q.NUM_MODE_ = 3 →
      (transit q ramp).settings.NUM_MODE = q.settings.NUM_MODE := by
  have hlast : ∀ (q : State) (ramp : List Calls), q.NUM_MODE_ = 2 ∨ q.NUM_MODE_ = 3 →
      (transit q ramp).settings.NUM_MODE = q.settings.NUM_MODE := by
    intro q ramp hq
    rw [transit_NUM_MODE]
    rcases hq with hq | hq <;> rw [hq] <;> norm_num
  rw [loop_clicks s i val hc] at hret
  cases hres : loopSwitch (memoryTick s i.flush) val i with
  | error q =>
    rw [hres] at hret
    exact absurd hret (by simp)
  | ok q =>
    rw [hres] at hret
    simp only [Except.ok.injEq] at hret
    subst hret
    have f1 := (transit_frame q i.ramp).1
    have f6 := transit_NUM_MODE q i.ramp
    rw [← f1] at f6
    have h0 : (transit q i.ramp).NUM_MODE_ = 0 → (transit q i.ramp).settings.NUM_MODE = false := by
      intro h
      rw [f6, if_pos h]
    have h1 : (transit q i.ramp).NUM_MODE_ = 1 → (transit q i.ramp).settings.NUM_MODE = true := by
      intro h
      rw [f6, h]
      norm_num
    refine ⟨h0, h1, ?_, hlast⟩
    rintro (h | h)
    · rw [h0 h, h]
      rfl
    · rw [h1 h, h]
      rfl

theorem C15_last_active_tracks_witness :
    (stateOf (loop { initial with NUM_MODE_ := 0 } { clicks := some 2, ramp := [.same 1023] })).NUM_MODE_
      = 1 ∧
    (stateOf (loop { initial with NUM_MODE_ := 0 }
      { clicks := some 2, ramp := [.same 1023] })).settings.NUM_MODE = true :=
  ⟨by decide,
    (C15_last_active_tracks { initial with NUM_MODE_ := 0 }
      (stateOf (loop { initial with NUM_MODE_ := 0 } { clicks := some 2, ramp := [.same 1023] }))
      { clicks := some 2, ramp := [.same 1023] } 2 rfl rfl).2.1 (by decide)⟩

/-! ## Shared lemmas: the state between passes of `loop()` -/

theorem transit_settled (q : State) (ramp : List Calls) (hm : ModeOK q) :
    Settled (transit q ramp) := by
  obtain ⟨f1, f2, f3, _, _⟩ := transit_frame q ramp
  have f6 := transit_NUM_MODE q ramp
  have f7 := transit_newValue q ramp
  refine ⟨?_, ?_, ?_, ?_⟩
  · unfold ModeOK
    rw [f1]
    exact hm
  · rw [f7, f1, f2, f3]
    rcases hm with h | h | h <;> rw [h] <;> norm_num
  · intro h
    rw [f1] at h
    rw [f6, if_pos h]
  · intro h
    rw [f1] at h
    rw [f6, h]
    norm_num

theorem memoryTick_settled (s : State) (f : Bool) (h : Settled s) :
    Settled (memoryTick s f) := by
  obtain ⟨t1, t2, t3, _⟩ := memoryTick_frame s f
  unfold Settled ModeOK at h ⊢
  rw [t1, t2, t3]
  exact h

/-- A pass of `loop()` that returns leaves a settled state. -/
theorem loop_settled (s s1 : State) (i : Input) (h : Settled s)
    (hret : loop s i = Except.ok s1) : Settled s1 := by
  have ht := memoryTick_settled s i.flush h
  cases hc : i.clicks with
  | none =>
    have e : loop s i = Except.ok (memoryTick s i.flush) := by
      unfold loop
      rw [hc]
    rw [e] at hret
    simp only [Except.ok.injEq] at hret
    rw [← hret]
    exact ht
  | some val =>
    rw [loop_clicks s i val hc] at hret
    have hm := loopSwitch_modeOK (memoryTick s i.flush) val i ht.1
    cases hres : loopSwitch (memoryTick s i.flush) val i with
    | error q =>
      rw [hres] at hret
      exact absurd hret (by simp)
    | ok q =>
      rw [hres] at hret hm
      simp only [Except.ok.injEq] at hret
      rw [← hret]
      exact transit_settled q i.ramp hm

theorem run_settled (inputs : List Input) : ∀ (s s1 : State), Settled s →
    run s inputs = Except.ok s1 → Settled s1 := by
  induction inputs with
  | nil =>
    intro s s1 h hret
    simp only [run, Except.ok.injEq] at hret
    rw [← hret]
    exact h
  | cons i rest ih =>
    intro s s1 h hret
    cases hres : loop s i with
    | error q =>
      simp [run, hres] at hret
    | ok q =>
      have e : run s (i :: rest) = run q rest := by
        simp [run, hres]
      rw [e] at hret
      exact ih q s1 (loop_settled s q i h hres) hret

theorem settled_of_start (s : State) (h2 : s.NUM_MODE_ = 2) (hv : s.newValue = 0) :
    Settled s := by
  refine ⟨Or.inr (Or.inr h2), ?_, ?_, ?_⟩
  · rw [hv, h2]
    norm_num
  · intro h
    rw [h2] at h
    norm_num at h
  · intro h
    rw [h2] at h
    norm_num at h

theorem setup_settled (m : Store) : Settled (setup m) := by
  apply settled_of_start
  all_goals
    unfold setup memoryBegin
    split_ifs <;> rfl

/-! ## C13: other click counts change nothing -/

/-- C13: in every state reached from the state `setup()` leaves (mode Off) by passes of
`loop()` that returned, a pass with a click count other than 1, 2, 3, 5 and 10 returns,
after its transition, with the mode, `FIRST_LVL`, `SECOND_LVL`, `settings.NUM_MODE` and
the target `newValue` unchanged; the only calls are the PWM writes of that transition. -/
theorem C13_other_counts_noop (m : Store) (inputs : List Input) (s : State) (i : Input)
    (val : Int) (hreach : run (setup m) inputs = Except.ok s) (hc : i.clicks = some val)
    (hval : val ≠ 1 ∧ val ≠ 2 ∧ val ≠ 3 ∧ val ≠ 5 ∧ val ≠ 10) :
    ∃ s1, loop s i = Except.ok s1 ∧
      s1.NUM_MODE_ = s.NUM_MODE_ ∧
      s1.settings.FIRST_LVL = s.settings.FIRST_LVL ∧
      s1.settings.SECOND_LVL = s.settings.SECOND_LVL ∧
      s1.settings.NUM_MODE = s.settings.NUM_MODE ∧
      s1.newValue = s.newValue ∧
      s1.trace = s.trace ++ i.ramp.map rampWrite := by
  obtain ⟨hm, hv, hn0, hn1⟩ := run_settled inputs (setup m) s (setup_settled m) hreach
  obtain ⟨t1, t2, t3, t4⟩ := memoryTick_frame s i.flush
  generalize ht : memoryTick s i.flush = t at t1 t2 t3 t4
  obtain ⟨v1, v2, v3, v5, v10⟩ := hval
  have hsw : loopSwitch t val i = Except.ok t := by
    simp [loopSwitch, v1, v2, v3, v5, v10]
  obtain ⟨f1, f2, f3, _, f5⟩ := transit_frame t i.ramp
  have f6 := transit_NUM_MODE t i.ramp
  have f7 := transit_newValue t i.ramp
  rw [t2, t1] at f6 f7
  rw [t3] at f7
  refine ⟨transit t i.ramp, by rw [loop_clicks s i val hc, ht, hsw], by rw [f1, t2],
    by rw [f2, t1], by rw [f3, t1], ?_, ?_, by rw [f5, t4]⟩
  · rw [f6]
    rcases hm with h | h | h
    · rw [if_pos h, hn0 h]
    · rw [h, hn1 h]
      norm_num
    · rw [h]
      norm_num
  · rw [f7, hv]
    rcases hm with h | h | h <;> rw [h] <;> norm_num

theorem C13_other_counts_noop_witness :
    ∃ s1, loop (stateOf (run (setup {}) sampleSession)) { clicks := some 7, ramp := [.same 3] }
        = Except.ok s1 ∧
      s1.NUM_MODE_ = 0 ∧ s1.settings.FIRST_LVL = 512 ∧ s1.settings.SECOND_LVL = 1023 ∧
      s1.settings.NUM_MODE = false ∧ s1.newValue = 512 := by
  obtain ⟨s1, h, h1, h2, h3, h4, h5, _⟩ :=
    C13_other_counts_noop {} sampleSession (stateOf (run (setup {}) sampleSession))
      { clicks := some 7, ramp := [.same 3] } 7 rfl rfl (by decide)
  exact ⟨s1, h, h1.trans (by decide), h2.trans (by decide), h3.trans (by decide),
    h4.trans (by decide), h5.trans (by decide)⟩

/-! ## C16: the clamp evaluates its argument again -/

theorem blinkCounts_append (a b : List Effect) :
    blinkCounts (a ++ b) = blinkCounts a ++ blinkCounts b := by
  unfold blinkCounts
  rw [List.filterMap_append]

theorem blinkCounts_ramp (ramp : List Calls) : blinkCounts (ramp.map rampWrite) = [] := by
  induction ramp with
  | nil => rfl
  | cons e r ih =>
    rw [List.map_cons]
    have h : blinkCounts (rampWrite e :: r.map rampWrite) = blinkCounts (r.map rampWrite) := rfl
    rw [h, ih]

/-- The blinks requested inside the loop `while (restart)` are the 2-pulse blinks of its
2-click passes. -/
theorem setLoop_blinks (l : List CalibStep) : ∀ (s : State) (now : Int),
    ∃ out, (stateOf (setLoop s now l)).trace = s.trace ++ out ∧
      ∀ n ∈ blinkCounts out, n = 2 := by
  induction l with
  | nil =>
    intro s now
    exact ⟨[], by simp [setLoop, stateOf], by simp [blinkCounts]⟩
  | cons c rest ih =>
    intro s now
    obtain ⟨q, b, hqb, _, _, _, _, _, q6, _⟩ := calibStep_frame s now c
    rw [setLoop_cons, hqb]
    have e4 : (emit (readPot q c.pot) (trackWrite c.pot)).trace =
        s.trace ++ ((if c.clicks = some 2 then [Effect.blink 2 100 100] else [])
          ++ (potReads c.pot ++ [trackWrite c.pot])) := by
      simp [emit, readPot, q6]
    have hb : ∀ n ∈ blinkCounts ((if c.clicks = some 2 then [Effect.blink 2 100 100] else [])
        ++ (potReads c.pot ++ [trackWrite c.pot])), n = 2 := by
      intro n hn
      by_cases hc2 : c.clicks = some 2
      · rw [if_pos hc2] at hn
        have : blinkCounts ([Effect.blink 2 100 100] ++
            (potReads c.pot ++ [trackWrite c.pot])) = [2] := by
          rw [blinkCounts_append, blinkCounts_append, blinkCounts_potReads]
          rfl
        rw [this, List.mem_singleton] at hn
        exact hn
      · rw [if_neg hc2] at hn
        have : blinkCounts ([] ++ (potReads c.pot ++ [trackWrite c.pot])) = [] := by
          rw [blinkCounts_append, blinkCounts_append, blinkCounts_potReads]
          rfl
        rw [this] at hn
        simp at hn
    cases b with
    | false =>
      simp only [Bool.false_eq_true, if_false, stateOf_ok]
      exact ⟨_, e4, hb⟩
    | true =>
      simp only [if_true]
      obtain ⟨out, i5, i6⟩ := ih (emit (readPot q c.pot) (trackWrite c.pot))
        (constrain c.pot 0 1023)
      refine ⟨((if c.clicks = some 2 then [Effect.blink 2 100 100] else [])
          ++ (potReads c.pot ++ [trackWrite c.pot])) ++ out,
        by rw [i5, e4, List.append_assoc], ?_⟩
      intro n hn
      rw [blinkCounts_append] at hn
      rcases List.mem_append.mp hn with h | h
      · exact hb n h
      · exact i6 n h

/-- The blinks requested inside `set()` have 2 pulses (2-click passes) or 3 pulses (the
blink on exit). -/
theorem set_blinks (s : State) (pot : Calls) (calRamp : List Calls) (calib : List CalibStep) :
    ∃ out, (stateOf (set s pot calRamp calib)).trace = s.trace ++ out ∧
      ∀ n ∈ blinkCounts out, n = 2 ∨ n = 3 := by
  obtain ⟨_, _, _, r4⟩ := foldl_setRampStep calRamp (readPot s pot)
  generalize hs1 : calRamp.foldl setRampStep (readPot s pot) = s1 at r4
  obtain ⟨out, i5, i6⟩ := setLoop_blinks calib s1 (constrain pot 0 1023)
  have t1 : s1.trace = s.trace ++ (potReads pot ++ calRamp.map rampWrite) := by
    rw [r4, readPot_trace, List.append_assoc]
  have hpre : blinkCounts (potReads pot ++ calRamp.map rampWrite) = [] := by
    rw [blinkCounts_append, blinkCounts_potReads, blinkCounts_ramp]
    rfl
  have hset : set s pot calRamp calib =
      match setLoop s1 (constrain pot 0 1023) calib with
      | Except.ok s2 => Except.ok (emit s2 (Effect.blink 3 100 100))
      | Except.error s2 => Except.error s2 := by
    unfold set
    simp only [hs1]
  rw [hset]
  cases hres : setLoop s1 (constrain pot 0 1023) calib with
  | error s2 =>
    rw [hres, stateOf_error] at i5
    refine ⟨(potReads pot ++ calRamp.map rampWrite) ++ out,
      by simp only [stateOf_error]; rw [i5, t1, List.append_assoc], ?_⟩
    intro n hn
    rw [blinkCounts_append, hpre, List.nil_append] at hn
    exact Or.inl (i6 n hn)
  | ok s2 =>
    rw [hres, stateOf_ok] at i5
    refine ⟨(potReads pot ++ calRamp.map rampWrite) ++ (out ++ [Effect.blink 3 100 100]),
      by simp only [stateOf_ok]; simp [emit, i5, t1], ?_⟩
    intro n hn
    rw [blinkCounts_append, hpre, List.nil_append, blinkCounts_append] at hn
    rcases List.mem_append.mp hn with h | h
    · exact Or.inl (i6 n h)
    · have : blinkCounts [Effect.blink 3 100 100] = [3] := rfl
      rw [this, List.mem_singleton] at h
      exact Or.inr h

theorem blinkCounts_blink (n a b : Int) (l : List Effect) :
    blinkCounts (Effect.blink n a b :: l) = n :: blinkCounts l := rfl

theorem blinkCounts_sleep (l : List Effect) :
    blinkCounts (Effect.sleep :: l) = blinkCounts l := rfl

theorem blinkCounts_update (l : List Effect) :
    blinkCounts (Effect.update :: l) = blinkCounts l := rfl

theorem blinkCounts_reset (l : List Effect) :
    blinkCounts (Effect.reset :: l) = blinkCounts l := rfl

theorem blinkCounts_begin (l : List Effect) :
    blinkCounts (Effect.begin :: l) = blinkCounts l := rfl

theorem blinkCounts_nil : blinkCounts [] = [] := rfl

/-- The blinks requested by the `switch (val)` of `loop()`. -/
theorem loopSwitch_blinks (t : State) (val : Int) (i : Input) :
    ∃ out, (stateOf (loopSwitch t val i)).trace = t.trace ++ out ∧
      BlinkTable t.NUM_MODE_ i.wake val (blinkCounts out) := by
  by_cases h1 : val = 1
  · subst h1
    by_cases hm : t.NUM_MODE_ = 2
    · exact ⟨[Effect.blink 1 100 100], by simp [loopSwitch, emit, hm, stateOf],
        by simp [BlinkTable, blinkCounts_blink, blinkCounts_nil, hm]⟩
    · cases hw : i.wake with
      | false =>
        exact ⟨Effect.blink 1 100 100 :: i.offRamp.map rampWrite ++ [Effect.sleep],
          by simp [loopSwitch, emit, hm, hw, stateOf, transit_trace],
          by simp [BlinkTable, blinkCounts_blink, blinkCounts_append, blinkCounts_ramp,
            blinkCounts_sleep, blinkCounts_nil, hm]⟩
      | true =>
        exact ⟨Effect.blink 1 100 100 :: i.offRamp.map rampWrite ++
            [Effect.sleep, Effect.blink 1 100 100],
          by simp [loopSwitch, emit, hm, hw, stateOf, transit_trace],
          by simp [BlinkTable, blinkCounts_blink, blinkCounts_append, blinkCounts_ramp,
            blinkCounts_sleep, blinkCounts_nil, hm]⟩
  · by_cases h2 : val = 2
    · subst h2
      exact ⟨[Effect.blink 2 100 100],
        by simp [loopSwitch, stateOf, (toggleMode_frame _).2.2.2.2, emit],
        by simp [BlinkTable, blinkCounts_blink, blinkCounts_nil]⟩
    · by_cases h3 : val = 3
      · subst h3
        by_cases ha : t.NUM_MODE_ = 0 ∨ t.NUM_MODE_ = 1
        · obtain ⟨out, e5, e6⟩ :=
            set_blinks (emit t (Effect.blink 3 100 100)) i.pot i.calRamp i.calib
          have hsw : loopSwitch t 3 i =
              set (emit t (Effect.blink 3 100 100)) i.pot i.calRamp i.calib := by
            simp [loopSwitch, emit, ha]
          refine ⟨Effect.blink 3 100 100 :: out, ?_, ?_⟩
          · rw [hsw, e5]
            simp [emit]
          · rw [blinkCounts_blink]
            refine ⟨?_, by norm_num, by norm_num, ?_, by norm_num, by norm_num, by norm_num⟩
            · intro n hn
              rcases List.mem_cons.mp hn with h | h
              · rw [h]
                norm_num
              · rcases e6 n h with h | h <;> rw [h] <;> norm_num
            · intro _
              exact ⟨blinkCounts out, rfl, e6, fun hn => absurd ha hn⟩
        · exact ⟨[Effect.blink 3 100 100], by simp [loopSwitch, emit, ha, stateOf],
            by simp [BlinkTable, blinkCounts_blink, blinkCounts_nil, ha]⟩
      · by_cases h5 : val = 5
        · subst h5
          by_cases ha : t.NUM_MODE_ = 0 ∨ t.NUM_MODE_ = 1
          · exact ⟨[Effect.blink 4 100 100, Effect.update],
              by simp [loopSwitch, emit, ha, stateOf, memoryUpdate],
              by simp [BlinkTable, blinkCounts_blink, blinkCounts_update, blinkCounts_nil, ha]⟩
          · exact ⟨[], by simp [loopSwitch, ha, stateOf],
              by simp [BlinkTable, blinkCounts_nil, ha]⟩
        · by_cases h10 : val = 10
          · subst h10
            by_cases ha : t.NUM_MODE_ = 0 ∨ t.NUM_MODE_ = 1
            · exact ⟨[Effect.blink 5 100 100, Effect.reset, Effect.begin],
                by simp [loopSwitch, emit, ha, stateOf, memoryReset, memoryBegin],
                by simp [BlinkTable, blinkCounts_blink, blinkCounts_reset, blinkCounts_begin,
                  blinkCounts_nil, ha]⟩
            · exact ⟨[], by simp [loopSwitch, ha, stateOf],
                by simp [BlinkTable, blinkCounts_nil, ha]⟩
          · exact ⟨[], by simp [loopSwitch, h1, h2, h3, h5, h10, stateOf],
              by simp [BlinkTable, blinkCounts_nil, h1, h2, h3, h5, h10]⟩

/-! ## C12: pulse counts of the indicator -/

/-- C12: the blinks requested in a pass of `loop()` with click count `val` have between
1 and 5 pulses and follow the branch taken: one click requests 1 pulse (and 1 pulse again
after the wake-up when it switched off), two clicks request 2, three clicks request 3
(then, in an active mode, come the blinks of the calibration routine, of 2 or 3 pulses),
five clicks in an active mode request 4, ten clicks in an active mode request 5; five or
ten clicks outside an active mode and every other click count request no blink. -/
theorem C12_blink_counts (s : State) (i : Input) (val : Int) (hc : i.clicks = some val) :
    ∃ out, (stateOf (loop s i)).trace = s.trace ++ out ∧
      (∀ n ∈ blinkCounts out, 1 ≤ n ∧ n ≤ 5) ∧
      (val = 1 → blinkCounts out =
        if s.NUM_MODE_ = 2 then [1] else if i.wake then [1, 1] else [1]) ∧
      (val = 2 → blinkCounts out = [2]) ∧
      (val = 3 → ∃ more, blinkCounts out = 3 :: more ∧ (∀ n ∈ more, n = 2 ∨ n = 3) ∧
        (¬ (s.NUM_MODE_ = 0 ∨ s.NUM_MODE_ = 1) → more = [])) ∧
      (val = 5 → blinkCounts out = if s.NUM_MODE_ = 0 ∨ s.NUM_MODE_ = 1 then [4] else []) ∧
      (val = 10 → blinkCounts out = if s.NUM_MODE_ = 0 ∨ s.NUM_MODE_ = 1 then [5] else []) ∧
      (val ≠ 1 ∧ val ≠ 2 ∧ val ≠ 3 ∧ val ≠ 5 ∧ val ≠ 10 → blinkCounts out = []) := by
  obtain ⟨_, t2, _, t4⟩ := memoryTick_frame s i.flush
  generalize ht : memoryTick s i.flush = t at t2 t4
  obtain ⟨out, h1, h2⟩ := loopSwitch_blinks t val i
  rw [t2] at h2
  rw [t4] at h1
  rw [loop_clicks s i val hc, ht]
  cases hres : loopSwitch t val i with
  | error q =>
    rw [hres, stateOf_error] at h1
    exact ⟨out, h1, h2⟩
  | ok q =>
    rw [hres, stateOf_ok] at h1
    refine ⟨out ++ i.ramp.map rampWrite, ?_, ?_⟩
    · simp only [stateOf_ok]
      rw [transit_trace, h1, List.append_assoc]
    · rw [blinkCounts_append, blinkCounts_ramp, List.append_nil]
      exact h2

theorem C12_blink_counts_witness :
    blinkCounts (stateOf (loop { initial with NUM_MODE_ := 1 }
      { clicks := some 5, ramp := [.same 1023] })).trace = [4] ∧
    blinkCounts (stateOf (loop { initial with NUM_MODE_ := 1 }
      { clicks := some 1, offRamp := [.same 0], ramp := [.same 1023] })).trace = [1, 1] ∧
    blinkCounts (stateOf (loop initial { clicks := some 5, ramp := [.same 0] })).trace = [] := by
  obtain ⟨out, h, _, _, _, _, h5, _⟩ :=
    C12_blink_counts { initial with NUM_MODE_ := 1 } { clicks := some 5, ramp := [.same 1023] } 5 rfl
  refine ⟨?_, by decide, by decide⟩
  rw [h]
  show blinkCounts ([] ++ out) = [4]
  rw [List.nil_append, h5 rfl]
  decide

/-! ## Shared lemmas: passes of the calibration loop that do not end it -/

/-- A 2-click pass of `while (restart)`: the mode is toggled and the loop goes on. -/
theorem setLoop_two (s : State) (now : Int) (r : Calls) (rest : List CalibStep) :
    setLoop s now (⟨some 2, r⟩ :: rest) =
      setLoop (emit (readPot (toggleMode (emit s (Effect.blink 2 100 100))) r)
        (trackWrite r)) (constrain r 0 1023) rest := by
  rw [setLoop_cons]
  simp [setClicks]

/-- A pass of `while (restart)` with a click count other than 2, 3 and 4: nothing but the
tracking happens and the loop goes on. -/
theorem setLoop_other (s : State) (now : Int) (r : Calls) (val : Int) (rest : List CalibStep)
    (hval : val ≠ 2 ∧ val ≠ 3 ∧ val ≠ 4) :
    setLoop s now (⟨some val, r⟩ :: rest) =
      setLoop (emit (readPot s r) (trackWrite r)) (constrain r 0 1023) rest := by
  obtain ⟨v2, v3, v4⟩ := hval
  rw [setLoop_cons]
  simp [setClicks, v2, v3, v4]

/-! ## C18: two clicks inside calibration -/

/-- C18: inside the calibration loop a 2-click pass toggles the mode between 0 and 1,
keeps the settings and does not end the loop (with no further pass the routine is still
waiting).  It redirects the commit: calibration entered in mode 0 (ModeA) with 3 clicks,
then 2 clicks, then 3 clicks when the reads are `p`, returns with `SECOND_LVL` the value
`constrain p 0 1023` (the reading `x` itself when the reads agree on a 10-bit `x`),
`FIRST_LVL` unchanged, mode 1 (ModeB) and `settings.NUM_MODE = 1` after the transition
of `loop()`.  A pass with a click count other than 2, 3 and 4 keeps the mode and the
settings and does not end the loop. -/
theorem C18_calibration_two_clicks (s a : State) (now val x : Int) (r p p2 : Calls)
    (rest : List CalibStep) (i : Input) (hval : val ≠ 2 ∧ val ≠ 3 ∧ val ≠ 4)
    (hm : a.NUM_MODE_ = 0) (hc : i.clicks = some 3)
    (hcal : i.calib = ⟨some 2, p⟩ :: ⟨some 3, p2⟩ :: rest) :
    (∃ q, setLoop s now (⟨some 2, r⟩ :: rest) = setLoop q (constrain r 0 1023) rest ∧
      setLoop s now [⟨some 2, r⟩] = Except.error q ∧
      q.NUM_MODE_ =
        (if s.NUM_MODE_ = 0 then 1 else if s.NUM_MODE_ = 1 then 0 else s.NUM_MODE_) ∧
      q.settings = s.settings) ∧
    (∃ q, setLoop s now (⟨some val, r⟩ :: rest) = setLoop q (constrain r 0 1023) rest ∧
      setLoop s now [⟨some val, r⟩] = Except.error q ∧
      q.NUM_MODE_ = s.NUM_MODE_ ∧ q.settings = s.settings) ∧
    (∃ s1, loop a i = Except.ok s1 ∧
      s1.settings.SECOND_LVL = constrain p 0 1023 ∧
      (p = Calls.same x → 0 ≤ x ∧ x ≤ 1023 → s1.settings.SECOND_LVL = x) ∧
      s1.settings.FIRST_LVL = a.settings.FIRST_LVL ∧
      s1.NUM_MODE_ = 1 ∧ s1.settings.NUM_MODE = true) := by
  refine ⟨?_, ?_, ?_⟩
  · obtain ⟨g1, g2, _, _, _⟩ := toggleMode_frame (emit s (Effect.blink 2 100 100))
    refine ⟨emit (readPot (toggleMode (emit s (Effect.blink 2 100 100))) r)
      (trackWrite r), setLoop_two s now r rest, ?_, g1, g2⟩
    rw [setLoop_two s now r []]
    rfl
  · refine ⟨emit (readPot s r) (trackWrite r),
      setLoop_other s now r val rest hval, ?_, rfl, rfl⟩
    rw [setLoop_other s now r val [] hval]
    rfl
  · obtain ⟨t1, t2, _, _⟩ := memoryTick_frame a i.flush
    generalize ht : memoryTick a i.flush = t at t1 t2
    obtain ⟨r1, _, r3, _⟩ := foldl_setRampStep i.calRamp
      (readPot (emit t (Effect.blink 3 100 100)) i.pot)
    generalize hs1 : i.calRamp.foldl setRampStep
      (readPot (emit t (Effect.blink 3 100 100)) i.pot) = s1 at r1 r3
    have s1m : s1.NUM_MODE_ = 0 := r3.trans (t2.trans hm)
    have s1s : s1.settings = a.settings := r1.trans t1
    have hq : ∃ q, setLoop s1 (constrain i.pot 0 1023) (⟨some 2, p⟩ :: ⟨some 3, p2⟩ :: rest) =
        setLoop q (constrain p 0 1023) (⟨some 3, p2⟩ :: rest) ∧
        q.NUM_MODE_ = 1 ∧ q.settings = a.settings := by
      obtain ⟨g1, g2, _, _, _⟩ := toggleMode_frame (emit s1 (Effect.blink 2 100 100))
      refine ⟨_, setLoop_two s1 (constrain i.pot 0 1023) p (⟨some 3, p2⟩ :: rest), ?_, ?_⟩
      · show (toggleMode (emit s1 (Effect.blink 2 100 100))).NUM_MODE_ = 1
        rw [g1]
        show (if s1.NUM_MODE_ = 0 then (1 : Int)
          else if s1.NUM_MODE_ = 1 then 0 else s1.NUM_MODE_) = 1
        rw [s1m]
        norm_num
      · show (toggleMode (emit s1 (Effect.blink 2 100 100))).settings = a.settings
        rw [g2]
        exact s1s
    obtain ⟨q, h1, h2, h3⟩ := hq
    obtain ⟨s2, k1, k2, k3, _, k5⟩ := setLoop_three q (constrain p 0 1023) p2 rest
    rw [h2] at k2 k3 k5
    norm_num at k2 k3
    rw [h3] at k2
    have hset : set (emit t (Effect.blink 3 100 100)) i.pot i.calRamp i.calib =
        Except.ok (emit s2 (Effect.blink 3 100 100)) := by
      unfold set
      simp only [hs1, hcal, h1, k1]
    have hloop : loop a i = Except.ok (transit (emit s2 (Effect.blink 3 100 100)) i.ramp) := by
      rw [loop_three_active a i hc (Or.inl hm), ht, hset]
    obtain ⟨f1, f2, f3, _, _⟩ := transit_frame (emit s2 (Effect.blink 3 100 100)) i.ramp
    have f6 := transit_NUM_MODE (emit s2 (Effect.blink 3 100 100)) i.ramp
    have e1 : (emit s2 (Effect.blink 3 100 100)).NUM_MODE_ = 1 := k5
    rw [e1] at f6 f1
    norm_num at f6
    have hsec : (transit (emit s2 (Effect.blink 3 100 100)) i.ramp).settings.SECOND_LVL =
        constrain p 0 1023 := f3.trans k3
    refine ⟨_, hloop, hsec, ?_, f2.trans k2, f1, f6⟩
    intro hpx hp
    rw [hsec, hpx, constrain_same]
    unfold clamp
    split_ifs <;> omega

theorem C18_calibration_two_clicks_witness :
    ∃ s1, loop { initial with NUM_MODE_ := 0 }
        { clicks := some 3, pot := .same 100, calRamp := [.same 100],
          calib := [⟨some 2, .same 300⟩, ⟨some 3, .same 300⟩], ramp := [.same 300] } = Except.ok s1 ∧
      s1.settings.SECOND_LVL = 300 ∧ s1.settings.FIRST_LVL = 512 ∧ s1.NUM_MODE_ = 1 ∧
      s1.settings.NUM_MODE = true := by
  obtain ⟨_, _, s1, h, _, h3, h4, h5, h6⟩ :=
    C18_calibration_two_clicks initial { initial with NUM_MODE_ := 0 } 0 7 300 (.same 0)
      (.same 300) (.same 300) []
      { clicks := some 3, pot := .same 100, calRamp := [.same 100],
        calib := [⟨some 2, .same 300⟩, ⟨some 3, .same 300⟩], ramp := [.same 300] }
      (by decide) rfl rfl rfl
  exact ⟨s1, h, h3 rfl (by decide), h4, h5, h6⟩

end LEDController
